import Mathlib

/-!
Verification of the MK3 amplifier diagnostic core: command codec, fault
bitfield decoders, reliability harness (burst test, adaptive delay search)
and the diagnostic orchestrator.

The definitions below are a shallow embedding of the Python sources
`src/network/mk3_commands.py`, `src/network/commands.py` and
`src/network/mk3_protocol.py`.  Machine bytes are modelled as `Nat`
(values 0-255 where relevant), decibel values as `Int`, and wall-clock
times / error rates as `Rat` (the sources use Python floats only as carriers
for measured durations and exact ratios such as `failed / count * 100`).
Network and device behaviour is supplied through explicit environment
records (oracles) so that the control flow of the harness and orchestrator
becomes a pure function of the oracle.
-/

set_option maxRecDepth 4096

namespace MK3Commands

/-- Wire-format header bytes `FF 55` (module constant `HEADER`). -/
def HEADER : List Nat := [0xFF, 0x55]

/-- `volume_db_to_hex` from `mk3_commands.py`: clamp `db` to `[-70, 0]`
then return `0x71 + (db + 70)`. -/
def volume_db_to_hex (db : Int) : Int :=
  let db := if db < -70 then -70 else if db > 0 then 0 else db
  0x71 + (db + 70)

/-- `volume_hex_to_db` from `mk3_commands.py`: `(hex_val - 0x71) - 70`,
with no range validation. -/
def volume_hex_to_db (hex_val : Int) : Int :=
  (hex_val - 0x71) - 70

/-- Python's `bytes([...])` constructor raises `ValueError` on any element
outside 0-255; otherwise it packs the values verbatim.  Modelled as an
`Option`: `none` is the `ValueError`. -/
def bytesOf (vals : List Nat) : Option (List Nat) :=
  if vals.all (fun v => v < 256) then some vals else none

/-- `MK3CommandBuilder._build_global`: `HEADER + bytes([0x01, cmd])`. -/
def build_global (cmd : Nat) : Option (List Nat) :=
  (bytesOf [0x01, cmd]).map (fun tail => HEADER ++ tail)

/-- `MK3CommandBuilder._build_group`: `HEADER + bytes([0x02, cmd, group])`.
No index validation is performed before encoding. -/
def build_group (cmd group : Nat) : Option (List Nat) :=
  (bytesOf [0x02, cmd, group]).map (fun tail => HEADER ++ tail)

/-- `MK3CommandBuilder._build_channel`: `HEADER + bytes([0x02, cmd, channel])`.
No index validation is performed before encoding. -/
def build_channel (cmd channel : Nat) : Option (List Nat) :=
  (bytesOf [0x02, cmd, channel]).map (fun tail => HEADER ++ tail)

/-- Per-group volume query opcode (`QueryCmd.VOLUME`). -/
def QueryCmdVOLUME : Nat := 0x10

end MK3Commands

namespace MK3Protocol

/-- `MK3GroupCommand.QUERY_VOLUME.value` from `mk3_protocol.py`. -/
def QUERY_VOLUME_base : List Nat := [0xFF, 0x55, 0x02, 0x10]

/-- Command built by `MK3ProtocolTester.query_group_volume`:
`MK3GroupCommand.QUERY_VOLUME.value + bytes([group])`.  As in
`MK3Commands.build_group`, the only failure is the byte-range check of
`bytes([group])` itself; there is no group-index validation. -/
def query_group_volume_command (group : Nat) : Option (List Nat) :=
  (MK3Commands.bytesOf [group]).map (fun tail => QUERY_VOLUME_base ++ tail)

/-- Decoded global protect status (`GlobalProtectBits.decode` in
`mk3_protocol.py`).  Bit meanings are reverse-engineered; the upper
four reserved bits and the raw byte are surfaced, not dropped. -/
structure GlobalProtectFlags where
  protection_active : Bool
  thermal_warning : Bool
  power_supply_fault : Bool
  amplifier_fault : Bool
  reserved_bits : Nat
  raw_value : Nat
  has_any_fault : Bool
deriving Repr, DecidableEq

namespace GlobalProtectBits

/-- Bit masks from `GlobalProtectBits` in `mk3_protocol.py`. -/
def PROTECTION_ACTIVE : Nat := 0x01
def THERMAL_WARNING : Nat := 0x02
def POWER_SUPPLY_FAULT : Nat := 0x04
def AMPLIFIER_FAULT : Nat := 0x08

/-- `GlobalProtectBits.decode`: decode the global protect status byte
into named flags. -/
def decode (status_byte : Nat) : GlobalProtectFlags :=
  { protection_active := status_byte &&& PROTECTION_ACTIVE != 0
    thermal_warning := status_byte &&& THERMAL_WARNING != 0
    power_supply_fault := status_byte &&& POWER_SUPPLY_FAULT != 0
    amplifier_fault := status_byte &&& AMPLIFIER_FAULT != 0
    reserved_bits := (status_byte >>> 4) &&& 0x0F
    raw_value := status_byte
    has_any_fault := status_byte != 0 }

end GlobalProtectBits

/-- Decoded per-group protect status (`GroupProtectBits.decode` in
`mk3_protocol.py`).  Upper three reserved bits and the raw byte are
surfaced. -/
structure GroupProtectFlags where
  muted_due_to_protect : Bool
  thermal_protect : Bool
  over_current : Bool
  load_fault : Bool
  dc_fault : Bool
  reserved_bits : Nat
  raw_value : Nat
  has_any_fault : Bool
deriving Repr, DecidableEq

namespace GroupProtectBits

/-- Bit masks from `GroupProtectBits` in `mk3_protocol.py`. -/
def MUTED_DUE_TO_PROTECT : Nat := 0x01
def THERMAL_PROTECT : Nat := 0x02
def OVER_CURRENT : Nat := 0x04
def LOAD_FAULT : Nat := 0x08
def DC_FAULT : Nat := 0x10

/-- `GroupProtectBits.decode`: decode a per-group protect status byte
into named flags. -/
def decode (status_byte : Nat) : GroupProtectFlags :=
  { muted_due_to_protect := status_byte &&& MUTED_DUE_TO_PROTECT != 0
    thermal_protect := status_byte &&& THERMAL_PROTECT != 0
    over_current := status_byte &&& OVER_CURRENT != 0
    load_fault := status_byte &&& LOAD_FAULT != 0
    dc_fault := status_byte &&& DC_FAULT != 0
    reserved_bits := (status_byte >>> 5) &&& 0x07
    raw_value := status_byte
    has_any_fault := status_byte != 0 }

end GroupProtectBits

/-- Decoded thermal state (`ThermalState.decode` in `mk3_protocol.py`). -/
structure ThermalFlags where
  state_code : Nat
  state_name : String
  is_normal : Bool
  is_warning : Bool
  is_critical : Bool
deriving Repr, DecidableEq

namespace ThermalState

def NORMAL : Nat := 0x00
def WARM : Nat := 0x01
def HOT : Nat := 0x02
def THERMAL_PROTECT : Nat := 0x03

/-- Hexadecimal rendering of a byte, as Python's `f"0x\x7bb:02X\x7d"`. -/
def hexDigit (n : Nat) : String :=
  ["0","1","2","3","4","5","6","7","8","9","A","B","C","D","E","F"].getD n "?"

def hexByte (b : Nat) : String :=
  hexDigit ((b / 16) % 16) ++ hexDigit (b % 16)

/-- `ThermalState.DESCRIPTIONS.get(state_byte, f"Unknown (0x..)")`. -/
def description (state_byte : Nat) : String :=
  if state_byte = 0x00 then "Normal"
  else if state_byte = 0x01 then "Warm"
  else if state_byte = 0x02 then "Hot"
  else if state_byte = 0x03 then "Thermal Protect"
  else "Unknown (0x" ++ hexByte state_byte ++ ")"

/-- `ThermalState.decode`: decode the thermal state byte. -/
def decode (state_byte : Nat) : ThermalFlags :=
  { state_code := state_byte
    state_name := description state_byte
    is_normal := state_byte = NORMAL
    is_warning := state_byte = WARM || state_byte = HOT
    is_critical := state_byte = THERMAL_PROTECT }

end ThermalState

end MK3Protocol

namespace CommandTester

/-!
Embedding of `CommandTester.burst_test` / `CommandTester.find_optimal_delay`
from `src/network/commands.py`.

The socket world is abstracted into a `NetEnv` oracle:
`connects k` is the outcome of the k-th call to `CommandTester.connect`
(the initial connect is k = 0, each reconnect attempt consumes the next
index); `sends k` is the `CommandResult` produced by the k-th trip
through `CommandTester.send_command` on a live connection, and
`drops k` tells whether that call left `conn.is_connected = False`
(the `except Exception` path of `send_command`).  The cancel flag is
reset at the start of `burst_test` and never set by the single-threaded
runs modelled here, so the `_cancel_flag` checks are elided.  The
`progress_callback` and `time.sleep` calls have no observable effect on
the result and are likewise elided.
-/

/-- The fields of `CommandResult` that `burst_test` observes.  The
`command` echo, `response` text and the send/recv time breakdown are
bookkeeping never read by the harness and are omitted. -/
structure CommandResult where
  success : Bool
  error : Option String := none
  total_time_ms : Option Rat := none
deriving Repr, DecidableEq

/-- Oracle for the network behaviour seen by one `burst_test` run. -/
structure NetEnv where
  connects : Nat → Bool
  connect_errors : Nat → String
  sends : Nat → CommandResult
  drops : Nat → Bool

/-- `send_command` result when `conn.is_connected` is false. -/
def notConnectedResult : CommandResult :=
  { success := false, error := some "Not connected" }

/-- Mutable loop state of the `for i in range(count)` loop in
`burst_test`, plus the oracle cursors (`sendIdx` counts `send_command`
calls on a live connection, `connIdx` counts `connect` calls; the
initial connect consumed index 0). -/
structure BurstState where
  successful : Nat := 0
  failed : Nat := 0
  errors : List String := []
  times : List Rat := []
  results : List CommandResult := []
  connected : Bool := true
  sendIdx : Nat := 0
  connIdx : Nat := 1
deriving Repr, DecidableEq

/-- One iteration of the burst loop (loop variable `i`).  Returns the
updated state and whether the loop continues (`false` models the
`break` after a failed reconnection). -/
def burst_iter (env : NetEnv) (i : Nat) (s : BurstState) : BurstState × Bool :=
  -- cmd_result = self.send_command(conn, command)
  let r := if s.connected then env.sends s.sendIdx else notConnectedResult
  let sendIdx := if s.connected then s.sendIdx + 1 else s.sendIdx
  let connected := if s.connected then !env.drops s.sendIdx else false
  let s := { s with results := s.results ++ [r], sendIdx := sendIdx, connected := connected }
  -- success/failure accounting; `if cmd_result.total_time_ms:` is Python
  -- truthiness, so a 0.0 latency is skipped like a missing one
  let s :=
    if r.success then
      { s with successful := s.successful + 1
               times := match r.total_time_ms with
                        | some t => if t ≠ 0 then s.times ++ [t] else s.times
                        | none => s.times }
    else
      { s with failed := s.failed + 1
               errors := match r.error with
                         | some e => s.errors ++ ["Command " ++ toString (i + 1) ++ ": " ++ e]
                         | none => s.errors }
  -- reconnect if connection was lost
  if s.connected then (s, true)
  else
    let ok := env.connects s.connIdx
    let s := { s with connIdx := s.connIdx + 1, connected := ok }
    if ok then (s, true)
    else ({ s with errors := s.errors ++ ["Reconnection failed"] }, false)

/-- The burst loop: `n` iterations remain, `i` is the loop variable. -/
def burst_loop (env : NetEnv) : Nat → Nat → BurstState → BurstState
  | 0, _, s => s
  | n + 1, i, s =>
    let p := burst_iter env i s
    if p.2 then burst_loop env n (i + 1) p.1 else p.1

/-- Final loop state of a `burst_test` run whose initial connect
succeeded. -/
def burst_state (env : NetEnv) (count : Nat) : BurstState :=
  burst_loop env count 0 {}

/-- `BurstTestResult` from `commands.py`.  The standard deviation field
is omitted (it involves a square root and is read by no claim); the
remaining statistics are carried exactly. -/
structure BurstTestResult where
  total_commands : Nat
  successful_commands : Nat
  failed_commands : Nat
  delay_between_ms : Rat
  min_response_ms : Option Rat := none
  avg_response_ms : Option Rat := none
  max_response_ms : Option Rat := none
  error_rate_percent : Rat := 0
  errors : List String := []
  individual_results : List CommandResult := []
deriving Repr, DecidableEq

/-- `CommandTester.burst_test`: connect once, run the loop, derive the
statistics.  Division on `Rat` totalises Python's `failed / count`
(Python raises `ZeroDivisionError` for `count = 0`; the claims are
stated for `0 < count`). -/
def burst_test (env : NetEnv) (count : Nat) (delay_ms : Rat) : BurstTestResult :=
  if !env.connects 0 then
    { total_commands := count
      successful_commands := 0
      failed_commands := count
      delay_between_ms := delay_ms
      error_rate_percent := 100
      errors := ["Failed to connect: " ++ env.connect_errors 0] }
  else
    let s := burst_state env count
    { total_commands := count
      successful_commands := s.successful
      failed_commands := s.failed
      delay_between_ms := delay_ms
      min_response_ms := s.times.min?
      avg_response_ms :=
        if s.times.isEmpty then none else some (s.times.sum / (s.times.length : Rat))
      max_response_ms := s.times.max?
      error_rate_percent := (s.failed : Rat) / (count : Rat) * 100
      errors := s.errors
      individual_results := s.results }

/-- One entry of the `tests` list built by `find_optimal_delay`. -/
structure DelayTestEntry where
  delay_ms : Rat
  error_rate_percent : Rat
  avg_response_ms : Option Rat
  successful : Nat
  failed : Nat
deriving Repr, DecidableEq

/-- The result dict of `find_optimal_delay`. -/
structure DelaySearchResults where
  tests : List DelayTestEntry
  recommended_delay_ms : Option Rat
  all_passed : Bool
deriving Repr, DecidableEq

/-- Entry recorded for one candidate delay. -/
def mkEntry (delay : Rat) (r : BurstTestResult) : DelayTestEntry :=
  { delay_ms := delay
    error_rate_percent := r.error_rate_percent
    avg_response_ms := r.avg_response_ms
    successful := r.successful_commands
    failed := r.failed_commands }

/-- `CommandTester.find_optimal_delay`: run a burst test per candidate
delay (the i-th test sees oracle `envs i`), record an entry for every
candidate, set `recommended_delay_ms` to the first candidate whose
error rate is within `max_acceptable_error_rate`, then apply the final
check of lines 423-425: if the first recorded test passed,
`all_passed = True` and `recommended_delay_ms` is overwritten with 0.
The loop body lives in `delay_step`: run the burst test for candidate
`p.2` (test index `p.1`), append its entry, and keep the first passing
candidate in the second component. -/
def delay_step (envs : Nat → NetEnv) (commands_per_test : Nat)
    (max_acceptable_error_rate : Rat)
    (acc : List DelayTestEntry × Option Rat) (p : Nat × Rat) :
    List DelayTestEntry × Option Rat :=
  let tr := burst_test (envs p.1) commands_per_test p.2
  let tests := acc.1 ++ [mkEntry p.2 tr]
  let rec0 :=
    if tr.error_rate_percent ≤ max_acceptable_error_rate then
      (if acc.2 = none then some p.2 else acc.2)
    else acc.2
  (tests, rec0)

def find_optimal_delay (envs : Nat → NetEnv) (commands_per_test : Nat)
    (delays_to_test : List Rat) (max_acceptable_error_rate : Rat) :
    DelaySearchResults :=
  let lp := delays_to_test.enum.foldl
    (delay_step envs commands_per_test max_acceptable_error_rate) ([], none)
  match lp.1.head? with
  | some e0 =>
    if e0.error_rate_percent ≤ max_acceptable_error_rate then
      { tests := lp.1, recommended_delay_ms := some 0, all_passed := true }
    else
      { tests := lp.1, recommended_delay_ms := lp.2, all_passed := false }
  | none => { tests := lp.1, recommended_delay_ms := lp.2, all_passed := false }

end CommandTester

namespace MK3Protocol

/-!
Embedding of the query helpers, `run_full_diagnostic` and `burst_test`
of `MK3ProtocolTester` (`src/network/mk3_protocol.py`).

Each `send_command_simple` round trip (connect, send, read, disconnect)
is abstracted into a `QueryOutcome` supplied by a `DeviceEnv` oracle:
`success` is false both for a failed connect and for a failed send/read,
`raw_data` is the response bytes, `error` the error text and `time` the
measured `response_time_ms`.  `query_all_group_status` opens one
connection of its own (`group_conn_ok`) and performs its four queries
per group on it.
-/

/-- Observable outcome of one `send_command_simple` round trip. -/
structure QueryOutcome where
  success : Bool
  raw_data : List Nat := []
  error : Option String := none
  time : Rat := 0
deriving Repr, DecidableEq

/-- `MK3PowerStatus` dataclass. -/
structure MK3PowerStatus where
  is_on : Bool
  raw_response : List Nat
deriving Repr, DecidableEq

/-- `MK3GlobalProtectStatus` dataclass. -/
structure MK3GlobalProtectStatus where
  protection_active : Bool := false
  thermal_warning : Bool := false
  power_supply_fault : Bool := false
  amplifier_fault : Bool := false
  has_any_fault : Bool := false
  raw_value : Nat := 0
  raw_response : List Nat := []
deriving Repr, DecidableEq

/-- `MK3ThermalStatus` dataclass. -/
structure MK3ThermalStatus where
  state_code : Nat := 0
  state_name : String := "Unknown"
  is_normal : Bool := true
  is_warning : Bool := false
  is_critical : Bool := false
  raw_response : List Nat := []
  query_supported : Bool := true
deriving Repr, DecidableEq

/-- `MK3GroupStatus` dataclass. -/
structure MK3GroupStatus where
  group_index : Nat
  group_name : String
  volume : Option Nat := none
  mute : Option Bool := none
  source : Option Nat := none
  protect_status : Option GroupProtectFlags := none
  raw_volume : Option (List Nat) := none
  raw_mute : Option (List Nat) := none
  raw_source : Option (List Nat) := none
  raw_protect : Option (List Nat) := none
deriving Repr, DecidableEq

/-- `MK3ChannelStatus` dataclass (never populated by
`run_full_diagnostic`; kept for the data model). -/
structure MK3ChannelStatus where
  channel_index : Nat
  channel_name : String
  dsp_preset : Option String := none
  has_short : Bool := false
  short_status : String := "Unknown"
  has_overtemp : Bool := false
  overtemp_status : String := "Unknown"
deriving Repr, DecidableEq

/-- `MK3DeviceStatus` dataclass.  The Python dicts `response_times` and
`raw_responses` are modelled as association lists in insertion order
(all keys written by the orchestrator are distinct). -/
structure MK3DeviceStatus where
  ip : String
  port : Nat
  is_reachable : Bool
  power_status : Option MK3PowerStatus := none
  global_protect : Option MK3GlobalProtectStatus := none
  thermal_status : Option MK3ThermalStatus := none
  groups : List MK3GroupStatus := []
  channels : List MK3ChannelStatus := []
  protocol_version : Option String := none
  response_times : List (String × Rat) := []
  errors : List String := []
  raw_responses : List (String × List Nat) := []
  has_any_fault : Bool := false
  fault_summary : List String := []
deriving Repr, DecidableEq

/-- Oracle for the device behaviour seen by one diagnostic run. -/
structure DeviceEnv where
  ip : String := "192.168.1.10"
  port : Nat := 52000
  probe_ok : Bool
  probe_time : Rat := 0
  probe_error : String := ""
  power : QueryOutcome
  global_protect : QueryOutcome
  thermal : QueryOutcome
  group_conn_ok : Bool
  group_volume : Nat → QueryOutcome
  group_mute : Nat → QueryOutcome
  group_source : Nat → QueryOutcome
  group_protect : Nat → QueryOutcome

/-- `GROUP_NAMES[i]` (`['A'..'H']`). -/
def groupName (i : Nat) : String :=
  ["A", "B", "C", "D", "E", "F", "G", "H"].getD i "?"

/-- Parsing step of `query_power_status`: the parsed value is set only
when the response succeeded with non-empty bytes; `is_on` is
`raw_data[0] == 0x01`. -/
def parse_power (o : QueryOutcome) : Option MK3PowerStatus :=
  if o.success && !o.raw_data.isEmpty then
    some { is_on := o.raw_data.headD 0 == 0x01, raw_response := o.raw_data }
  else none

/-- Parsing step of `query_global_protect_status`. -/
def parse_global_protect (o : QueryOutcome) : Option MK3GlobalProtectStatus :=
  if o.success && !o.raw_data.isEmpty then
    let b := o.raw_data.headD 0
    let d := GlobalProtectBits.decode b
    some { protection_active := d.protection_active
           thermal_warning := d.thermal_warning
           power_supply_fault := d.power_supply_fault
           amplifier_fault := d.amplifier_fault
           has_any_fault := d.has_any_fault
           raw_value := b
           raw_response := o.raw_data }
  else none

/-- Parsing step of `query_thermal_state`: a successful non-empty
response decodes with `query_supported = True`; a failed response whose
error text is non-empty (Python truthiness of `response.error`) yields
the distinct "Query not supported" marker with `query_supported =
False`; otherwise no parsed value. -/
def parse_thermal (o : QueryOutcome) : Option MK3ThermalStatus :=
  if o.success && !o.raw_data.isEmpty then
    let b := o.raw_data.headD 0
    let d := ThermalState.decode b
    some { state_code := d.state_code
           state_name := d.state_name
           is_normal := d.is_normal
           is_warning := d.is_warning
           is_critical := d.is_critical
           raw_response := o.raw_data
           query_supported := true }
  else
    match o.error with
    | some e =>
      if e = "" then none
      else some { state_name := "Query not supported", query_supported := false }
    | none => none

/-- Group-status assembly for one group index inside
`query_all_group_status`. -/
def build_group_status (env : DeviceEnv) (i : Nat) : MK3GroupStatus :=
  let g : MK3GroupStatus := { group_index := i, group_name := groupName i }
  let vo := env.group_volume i
  let g :=
    if vo.success then
      { g with raw_volume := some vo.raw_data
               volume := if vo.raw_data.isEmpty then none else some (vo.raw_data.headD 0) }
    else g
  let mo := env.group_mute i
  let g :=
    if mo.success then
      { g with raw_mute := some mo.raw_data
               mute := if mo.raw_data.isEmpty then none else some (mo.raw_data.headD 0 == 0x01) }
    else g
  let so := env.group_source i
  let g :=
    if so.success then
      { g with raw_source := some so.raw_data
               source := if so.raw_data.isEmpty then none else some (so.raw_data.headD 0) }
    else g
  let po := env.group_protect i
  let g :=
    if po.success then
      { g with raw_protect := some po.raw_data
               protect_status :=
                 if po.raw_data.isEmpty then none
                 else some (GroupProtectBits.decode (po.raw_data.headD 0)) }
    else g
  g

/-- `query_all_group_status`: empty on connection failure, otherwise one
status per group index in `range(min(num_groups, 8))`. -/
def query_all_group_status (env : DeviceEnv) (num_groups : Nat) :
    List MK3GroupStatus :=
  if !env.group_conn_ok then []
  else (List.range (min num_groups 8)).map (build_group_status env)

/-- `has_any_fault` flag of a group status as read by the orchestrator:
`g.protect_status and g.protect_status.get('has_any_fault')`. -/
def groupFault (g : MK3GroupStatus) : Bool :=
  match g.protect_status with
  | some p => p.has_any_fault
  | none => false

/-- `fault_types` tags accumulated for a faulted group. -/
def groupFaultTypes (p : GroupProtectFlags) : List String :=
  (if p.muted_due_to_protect then ["auto-muted"] else []) ++
  (if p.thermal_protect then ["thermal"] else []) ++
  (if p.over_current then ["over-current/short"] else []) ++
  (if p.load_fault then ["load fault"] else []) ++
  (if p.dc_fault then ["DC fault"] else [])

/-- The per-group accumulation step of `run_full_diagnostic` (raw
response retention plus fault aggregation), threading
`(raw_responses, has_any_fault, fault_summary)`. -/
def group_fold_step (acc : List (String × List Nat) × Bool × List String)
    (g : MK3GroupStatus) : List (String × List Nat) × Bool × List String :=
  let raws := acc.1 ++
    [("group_" ++ g.group_name ++ "_volume", g.raw_volume.getD []),
     ("group_" ++ g.group_name ++ "_mute", g.raw_mute.getD []),
     ("group_" ++ g.group_name ++ "_source", g.raw_source.getD []),
     ("group_" ++ g.group_name ++ "_protect", g.raw_protect.getD [])]
  match g.protect_status with
  | some p =>
    if p.has_any_fault then
      (raws, true,
       acc.2.2 ++ ["GROUP " ++ g.group_name ++ " FAULT: " ++
                   String.intercalate ", " (groupFaultTypes p)])
    else (raws, acc.2.1, acc.2.2)
  | none => (raws, acc.2.1, acc.2.2)

/-- Power-status stage of `run_full_diagnostic`: record the query time,
then on success store the parsed power status and retain the raw bytes;
on failure record an error entry. -/
def diag_power_step (env : DeviceEnv) (status : MK3DeviceStatus) :
    MK3DeviceStatus :=
  let po := env.power
  let status := { status with
    response_times := status.response_times ++ [("power_query", po.time)] }
  if po.success then
    { status with power_status := parse_power po
                  raw_responses := status.raw_responses ++ [("power", po.raw_data)] }
  else
    { status with errors := status.errors ++
        ["Power query failed: " ++ po.error.getD "None"] }

/-- Global-protect stage of `run_full_diagnostic`: record the query
time; when the query succeeded with a parsed value, store it, retain
the raw bytes, and aggregate its fault flags into `has_any_fault` and
`fault_summary`. -/
def diag_global_step (env : DeviceEnv) (status : MK3DeviceStatus) :
    MK3DeviceStatus :=
  let go := env.global_protect
  let gp := parse_global_protect go
  let status := { status with
    response_times := status.response_times ++ [("global_protect_query", go.time)] }
  match gp with
  | some g =>
    if go.success then
      let status := { status with
        global_protect := some g
        raw_responses := status.raw_responses ++ [("global_protect", go.raw_data)] }
      if g.has_any_fault then
        { status with
          has_any_fault := true
          fault_summary := status.fault_summary ++
            (if g.protection_active then
              ["PROTECTION ACTIVE - Amplifier in protection mode"] else []) ++
            (if g.thermal_warning then
              ["THERMAL WARNING - Amplifier is overheating"] else []) ++
            (if g.power_supply_fault then
              ["POWER SUPPLY FAULT - PSU issue detected"] else []) ++
            (if g.amplifier_fault then
              ["AMPLIFIER FAULT - Generic amp fault"] else []) }
      else status
    else status
  | none => status

/-- Thermal stage of `run_full_diagnostic`: record the query time; a
successful parsed reading is stored with raw bytes, a critical state
sets `has_any_fault`, a warning state only adds a summary line; an
unsupported or failed query stores nothing and is non-fatal. -/
def diag_thermal_step (env : DeviceEnv) (status : MK3DeviceStatus) :
    MK3DeviceStatus :=
  let to0 := env.thermal
  let th := parse_thermal to0
  let status := { status with
    response_times := status.response_times ++ [("thermal_query", to0.time)] }
  match th with
  | some t =>
    if to0.success then
      let status := { status with
        thermal_status := some t
        raw_responses := status.raw_responses ++ [("thermal", to0.raw_data)] }
      if t.is_critical then
        { status with
          has_any_fault := true
          fault_summary := status.fault_summary ++
            ["THERMAL CRITICAL - " ++ t.state_name] }
      else if t.is_warning then
        { status with fault_summary := status.fault_summary ++
            ["THERMAL WARNING - " ++ t.state_name] }
      else status
    else status
  | none => status

/-- Group stage of `run_full_diagnostic`: query all groups, retain
their raw bytes and aggregate per-group faults. -/
def diag_groups_step (env : DeviceEnv) (num_groups : Nat)
    (status : MK3DeviceStatus) : MK3DeviceStatus :=
  let groups := query_all_group_status env num_groups
  let folded := groups.foldl group_fold_step
    (status.raw_responses, status.has_any_fault, status.fault_summary)
  { status with
    groups := groups
    raw_responses := folded.1
    has_any_fault := folded.2.1
    fault_summary := folded.2.2 }

/-- `MK3ProtocolTester.run_full_diagnostic`: timed connectivity probe,
then (if reachable) the power, global-protect, thermal and per-group
query stages in source order, with raw-byte retention and fault
aggregation.  Channel statuses are never queried by this function, so
`channels` stays empty. -/
def run_full_diagnostic (env : DeviceEnv) (num_groups : Nat) :
    MK3DeviceStatus :=
  let status : MK3DeviceStatus :=
    { ip := env.ip, port := env.port, is_reachable := env.probe_ok
      response_times := [("connectivity", env.probe_time)] }
  if !env.probe_ok then
    { status with errors := ["Connection failed: " ++ env.probe_error] }
  else
    diag_groups_step env num_groups
      (diag_thermal_step env (diag_global_step env (diag_power_step env status)))

/-- Outcome of one `_send_command` inside `MK3ProtocolTester.burst_test`
(every failure path of `_send_command` carries an error string). -/
structure MK3SendOutcome where
  success : Bool
  response_time_ms : Rat := 0
  error : String := ""
deriving Repr, DecidableEq

/-- Oracle for one `MK3ProtocolTester.burst_test` run: a single connect
plus one outcome per loop iteration. -/
structure MK3BurstEnv where
  connect_ok : Bool
  connect_error : String := ""
  sends : Nat → MK3SendOutcome

/-- The results dict of `MK3ProtocolTester.burst_test`. -/
structure MK3BurstResults where
  total : Nat
  successful : Nat
  failed : Nat
  response_times : List Rat
  errors : List String
  error_rate_percent : Rat
  avg_response_ms : Option Rat := none
  min_response_ms : Option Rat := none
  max_response_ms : Option Rat := none
deriving Repr, DecidableEq

/-- `MK3ProtocolTester.burst_test`: connect once; on failure return the
all-failed result with a single error; otherwise run `count`
iterations accumulating successes, latencies and error texts, then
derive `error_rate_percent = failed / count * 100` and the latency
statistics.  The loop body lives in `burst_step`, accumulating
`(successful, failed, response_times, errors)`. -/
def burst_step (env : MK3BurstEnv) (acc : Nat × Nat × List Rat × List String)
    (i : Nat) : Nat × Nat × List Rat × List String :=
  let o := env.sends i
  if o.success then
    (acc.1 + 1, acc.2.1, acc.2.2.1 ++ [o.response_time_ms], acc.2.2.2)
  else
    (acc.1, acc.2.1 + 1, acc.2.2.1, acc.2.2.2 ++ [o.error])

def burst_test (env : MK3BurstEnv) (count : Nat) : MK3BurstResults :=
  if !env.connect_ok then
    { total := count
      successful := 0
      failed := count
      response_times := []
      errors := ["Connection failed: " ++ env.connect_error]
      error_rate_percent := 100 }
  else
    let st := (List.range count).foldl (burst_step env) (0, 0, [], [])
    { total := count
      successful := st.1
      failed := st.2.1
      response_times := st.2.2.1
      errors := st.2.2.2
      error_rate_percent := (st.2.1 : Rat) / (count : Rat) * 100
      avg_response_ms :=
        if st.2.2.1.isEmpty then none
        else some (st.2.2.1.sum / (st.2.2.1.length : Rat))
      min_response_ms := st.2.2.1.min?
      max_response_ms := st.2.2.1.max? }

end MK3Protocol

/-!
Concrete environments used to instantiate the theorems below on
explicit inputs.
-/

/-- A device/network that accepts every connection and answers every
command successfully in 5 ms. -/
def passNetEnv : CommandTester.NetEnv :=
  { connects := fun _ => true
    connect_errors := fun _ => ""
    sends := fun _ => { success := true, total_time_ms := some 5 }
    drops := fun _ => false }

/-- A device that accepts connections but fails every command. -/
def failSendNetEnv : CommandTester.NetEnv :=
  { connects := fun _ => true
    connect_errors := fun _ => ""
    sends := fun _ => { success := false, error := some "Timeout waiting for response" }
    drops := fun _ => false }

/-- Delay-search scenario oracle: the 0 ms test (test index 0) fails
every command, every later test passes every command. -/
def delayScenarioEnvs : Nat → CommandTester.NetEnv :=
  fun i => if i = 0 then failSendNetEnv else passNetEnv

/-- Delay-search oracle where every test passes. -/
def allPassEnvs : Nat → CommandTester.NetEnv :=
  fun _ => passNetEnv

/-- A connection that accepts the initial connect, then resets: every
send fails and drops the connection, and every reconnect attempt is
refused. -/
def dropNetEnv : CommandTester.NetEnv :=
  { connects := fun k => k == 0
    connect_errors := fun _ => "Connection refused"
    sends := fun _ => { success := false, error := some "Connection reset" }
    drops := fun _ => true }

/-- A host that refuses every connection. -/
def noConnNetEnv : CommandTester.NetEnv :=
  { connects := fun _ => false
    connect_errors := fun _ => "Connection refused"
    sends := fun _ => { success := false }
    drops := fun _ => false }

/-- MK3 burst oracle: connection refused. -/
def noConnMK3Env : MK3Protocol.MK3BurstEnv :=
  { connect_ok := false
    connect_error := "Connection refused"
    sends := fun _ => { success := false } }

/-- MK3 burst oracle: every command succeeds in 5 ms. -/
def passMK3Env : MK3Protocol.MK3BurstEnv :=
  { connect_ok := true
    sends := fun _ => { success := true, response_time_ms := 5 } }

/-- Query outcome: success with the given bytes. -/
def okQ (bs : List Nat) : MK3Protocol.QueryOutcome :=
  { success := true, raw_data := bs, time := 1 }

/-- Query outcome: communication failure. -/
def failQ : MK3Protocol.QueryOutcome :=
  { success := false, error := some "Response timeout", time := 1 }

/-- A fully healthy, reachable device: power on, no faults, all group
queries answered. -/
def healthyDeviceEnv : MK3Protocol.DeviceEnv :=
  { probe_ok := true
    probe_time := 2
    power := okQ [0x01]
    global_protect := okQ [0x00]
    thermal := okQ [0x00]
    group_conn_ok := true
    group_volume := fun _ => okQ [0x90]
    group_mute := fun _ => okQ [0x00]
    group_source := fun _ => okQ [0x01]
    group_protect := fun _ => okQ [0x00] }

/-- A reachable device whose global-fault and thermal queries fail while
all group queries succeed; group index 2 (group C) reports an
over-current fault byte `0x04`. -/
def groupFaultDeviceEnv : MK3Protocol.DeviceEnv :=
  { probe_ok := true
    probe_time := 2
    power := okQ [0x01]
    global_protect := failQ
    thermal := failQ
    group_conn_ok := true
    group_volume := fun _ => okQ [0x90]
    group_mute := fun _ => okQ [0x00]
    group_source := fun _ => okQ [0x01]
    group_protect := fun i => okQ [if i = 2 then 0x04 else 0x00] }

/-- An unreachable device. -/
def unreachableDeviceEnv : MK3Protocol.DeviceEnv :=
  { probe_ok := false
    probe_time := 3
    probe_error := "Connection timed out"
    power := okQ [0x01]
    global_protect := okQ [0x00]
    thermal := okQ [0x00]
    group_conn_ok := true
    group_volume := fun _ => okQ [0x90]
    group_mute := fun _ => okQ [0x00]
    group_source := fun _ => okQ [0x01]
    group_protect := fun _ => okQ [0x00] }

/-- C8: `volume_db_to_hex` computes `0x71 + (clamp(db, -70, 0) + 70)` for
every integer `db`, and `volume_hex_to_db` is its exact inverse on the
clamped value: `volume_hex_to_db (volume_db_to_hex db) = clamp(db, -70, 0)`
for all integers `db`. -/
theorem C8_volume_roundtrip (db : Int) :
    MK3Commands.volume_db_to_hex db = 0x71 + (max (-70) (min 0 db) + 70) ∧
    MK3Commands.volume_hex_to_db (MK3Commands.volume_db_to_hex db) =
      max (-70) (min 0 db) := by
  constructor <;>
    simp only [MK3Commands.volume_db_to_hex, MK3Commands.volume_hex_to_db] <;>
    (try split_ifs) <;> omega

/-- C10 counterexample: the byte `0xB7` lies outside the claimed valid
volume range `0x71..0xB6`, yet `volume_hex_to_db 0xB7 = 0`, which is
inside `-70..0` — and `0xB7` is in fact the byte `volume_db_to_hex`
produces for 0 dB, one past the range its own docstring states. -/
theorem C10_counterexample :
    0xB6 < (0xB7 : Int) ∧
    MK3Commands.volume_hex_to_db 0xB7 = 0 ∧
    -70 ≤ (0 : Int) ∧ (0 : Int) ≤ 0 ∧
    MK3Commands.volume_db_to_hex 0 = 0xB7 := by
  decide

/-- C10 amended: `volume_hex_to_db` performs no range validation: it
returns `h - 183` for every integer `h`.  The byte range the codec
actually uses is `0x71..0xB7` (`volume_db_to_hex 0 = 0xB7`, one past
the documented `0xB6`): bytes below `0x71` map below −70 and bytes
above `0xB7` map above 0 instead of being rejected or clamped, and
`volume_hex_to_db` inverts `volume_db_to_hex` only on the clamped
range `[-70, 0]` (at `db = -71` the round trip returns −70, not −71). -/
theorem C10_hex_to_db_no_validation :
    (∀ h : Int, MK3Commands.volume_hex_to_db h = h - 183) ∧
    (∀ h : Int, h < 0x71 → MK3Commands.volume_hex_to_db h < -70) ∧
    (∀ h : Int, 0xB7 < h → 0 < MK3Commands.volume_hex_to_db h) ∧
    MK3Commands.volume_db_to_hex (-70) = 0x71 ∧
    MK3Commands.volume_db_to_hex 0 = 0xB7 ∧
    (∀ db : Int, -70 ≤ db → db ≤ 0 →
       MK3Commands.volume_hex_to_db (MK3Commands.volume_db_to_hex db) = db) ∧
    MK3Commands.volume_hex_to_db (MK3Commands.volume_db_to_hex (-71)) = -70 := by
  refine ⟨fun h => ?_, fun h hh => ?_, fun h hh => ?_, by decide, by decide,
    fun db h1 h2 => ?_, by decide⟩ <;>
    simp only [MK3Commands.volume_hex_to_db, MK3Commands.volume_db_to_hex] <;>
    (try split_ifs) <;> omega

/-- C10 witness: the amended theorem instantiated at `h = 0x70`,
`h = 0xB8` and `db = -30`. -/
theorem C10_witness :
    MK3Commands.volume_hex_to_db 0x70 < -70 ∧
    0 < MK3Commands.volume_hex_to_db 0xB8 ∧
    MK3Commands.volume_hex_to_db (MK3Commands.volume_db_to_hex (-30)) = -30 :=
  ⟨C10_hex_to_db_no_validation.2.1 0x70 (by decide),
   C10_hex_to_db_no_validation.2.2.1 0xB8 (by decide),
   C10_hex_to_db_no_validation.2.2.2.2.2.1 (-30) (by decide) (by decide)⟩

/-- C7: both fault bitfield decoders are total over all 256 byte values
and return a structurally valid named-flag set: each named flag reflects
its reverse-engineered bit, the reserved bits and raw byte are surfaced,
and `has_any_fault = (byte != 0)`.  The global status byte `0x05` decodes
to `protection_active`, `power_supply_fault`, `has_any_fault` true and
`thermal_warning`, `amplifier_fault` false. -/
theorem C7_decoders_total :
    (∀ b : Fin 256,
       (MK3Protocol.GlobalProtectBits.decode b).has_any_fault = decide (b.val ≠ 0) ∧
       (MK3Protocol.GlobalProtectBits.decode b).protection_active = b.val.testBit 0 ∧
       (MK3Protocol.GlobalProtectBits.decode b).thermal_warning = b.val.testBit 1 ∧
       (MK3Protocol.GlobalProtectBits.decode b).power_supply_fault = b.val.testBit 2 ∧
       (MK3Protocol.GlobalProtectBits.decode b).amplifier_fault = b.val.testBit 3 ∧
       (MK3Protocol.GlobalProtectBits.decode b).reserved_bits = b.val / 16 ∧
       (MK3Protocol.GlobalProtectBits.decode b).raw_value = b.val ∧
       (MK3Protocol.GroupProtectBits.decode b).has_any_fault = decide (b.val ≠ 0) ∧
       (MK3Protocol.GroupProtectBits.decode b).muted_due_to_protect = b.val.testBit 0 ∧
       (MK3Protocol.GroupProtectBits.decode b).thermal_protect = b.val.testBit 1 ∧
       (MK3Protocol.GroupProtectBits.decode b).over_current = b.val.testBit 2 ∧
       (MK3Protocol.GroupProtectBits.decode b).load_fault = b.val.testBit 3 ∧
       (MK3Protocol.GroupProtectBits.decode b).dc_fault = b.val.testBit 4 ∧
       (MK3Protocol.GroupProtectBits.decode b).reserved_bits = b.val / 32 ∧
       (MK3Protocol.GroupProtectBits.decode b).raw_value = b.val) ∧
    MK3Protocol.GlobalProtectBits.decode 0x05 =
      { protection_active := true, thermal_warning := false,
        power_supply_fault := true, amplifier_fault := false,
        reserved_bits := 0, raw_value := 5, has_any_fault := true } := by
  decide

/-- C9 counterexample: out-of-range indices are not rejected before
encoding.  Group index 8 (valid range 0..7), channel index 0x05 (valid
range 0x08..0x0F) and group index 9 are each silently wrapped into a
wire-format byte sequence by the builders, with no `InvalidIndex`
failure. -/
theorem C9_counterexample :
    MK3Commands.build_group 0x10 8 = some [0xFF, 0x55, 0x02, 0x10, 8] ∧
    MK3Commands.build_channel 0x17 0x05 = some [0xFF, 0x55, 0x02, 0x17, 0x05] ∧
    MK3Protocol.query_group_volume_command 9 = some [0xFF, 0x55, 0x02, 0x10, 9] := by
  decide

/-- C9 amended: the command builders perform no group- or channel-index
validation: every index in 0..255 — including groups outside 0..7 and
channels outside 0x08..0x0F — is silently encoded into the wire-format
byte sequence; only values that do not fit in a byte fail, and that
failure comes from the byte constructor, not an `InvalidIndex` check. -/
theorem C9_index_encoding_amended (cmd group channel : Nat) :
    (cmd < 256 → group < 256 →
       MK3Commands.build_group cmd group = some [0xFF, 0x55, 0x02, cmd, group]) ∧
    (256 ≤ group → MK3Commands.build_group cmd group = none) ∧
    (cmd < 256 → channel < 256 →
       MK3Commands.build_channel cmd channel = some [0xFF, 0x55, 0x02, cmd, channel]) ∧
    (group < 256 →
       MK3Protocol.query_group_volume_command group =
         some [0xFF, 0x55, 0x02, 0x10, group]) := by
  refine ⟨fun h1 h2 => ?_, fun h => ?_, fun h1 h2 => ?_, fun h => ?_⟩ <;>
    simp_all [MK3Commands.build_group, MK3Commands.build_channel,
      MK3Protocol.query_group_volume_command, MK3Commands.bytesOf,
      MK3Commands.HEADER, MK3Protocol.QUERY_VOLUME_base]

/-- C9 witness: the amended theorem instantiated at opcode `0x10`,
group 8, channel 5, and at an index that does not fit in a byte. -/
theorem C9_witness :
    MK3Commands.build_group 0x10 200 = some [0xFF, 0x55, 0x02, 0x10, 200] ∧
    MK3Commands.build_group 0x10 300 = none ∧
    MK3Commands.build_channel 0x17 5 = some [0xFF, 0x55, 0x02, 0x17, 5] ∧
    MK3Protocol.query_group_volume_command 12 = some [0xFF, 0x55, 0x02, 0x10, 12] :=
  ⟨(C9_index_encoding_amended 0x10 200 5).1 (by decide) (by decide),
   (C9_index_encoding_amended 0x10 300 5).2.1 (by decide),
   (C9_index_encoding_amended 0x17 300 5).2.2.1 (by decide) (by decide),
   (C9_index_encoding_amended 0x10 12 5).2.2.2 (by decide)⟩

/-- C5: a burst test whose initial connection fails before any command
is sent returns `failed = count`, `errorRatePercent = 100`,
`successful = 0` and exactly one descriptive error entry, in both
`CommandTester.burst_test` and `MK3ProtocolTester.burst_test`. -/
theorem C5_connect_failure_result (env : CommandTester.NetEnv)
    (menv : MK3Protocol.MK3BurstEnv) (count : Nat) (delay : Rat)
    (h : env.connects 0 = false) (hm : menv.connect_ok = false) :
    ((CommandTester.burst_test env count delay).failed_commands = count ∧
     (CommandTester.burst_test env count delay).error_rate_percent = 100 ∧
     (CommandTester.burst_test env count delay).successful_commands = 0 ∧
     (CommandTester.burst_test env count delay).errors =
       ["Failed to connect: " ++ env.connect_errors 0] ∧
     (CommandTester.burst_test env count delay).individual_results = []) ∧
    ((MK3Protocol.burst_test menv count).failed = count ∧
     (MK3Protocol.burst_test menv count).error_rate_percent = 100 ∧
     (MK3Protocol.burst_test menv count).successful = 0 ∧
     (MK3Protocol.burst_test menv count).errors =
       ["Connection failed: " ++ menv.connect_error]) := by
  simp [CommandTester.burst_test, MK3Protocol.burst_test, h, hm]

/-- C5 witness: the theorem instantiated on a host refusing every
connection, with `count = 3`. -/
theorem C5_witness :
    (CommandTester.burst_test noConnNetEnv 3 0).failed_commands = 3 ∧
    (CommandTester.burst_test noConnNetEnv 3 0).error_rate_percent = 100 ∧
    (MK3Protocol.burst_test noConnMK3Env 3).successful = 0 :=
  ⟨(C5_connect_failure_result noConnNetEnv noConnMK3Env 3 0 rfl rfl).1.1,
   (C5_connect_failure_result noConnNetEnv noConnMK3Env 3 0 rfl rfl).1.2.1,
   (C5_connect_failure_result noConnNetEnv noConnMK3Env 3 0 rfl rfl).2.2.2.1⟩

/-- Helper: the burst loop over a window of successful, non-dropping
sends with non-zero latencies advances every counter by the window
length and touches neither the error list nor the connect cursor. -/
theorem burst_loop_all_ok (env : CommandTester.NetEnv) :
    ∀ (n i : Nat) (s : CommandTester.BurstState),
      s.connected = true →
      (∀ k, s.sendIdx ≤ k → k < s.sendIdx + n →
        (env.sends k).success = true ∧ env.drops k = false ∧
        ∃ t, (env.sends k).total_time_ms = some t ∧ t ≠ 0) →
      (CommandTester.burst_loop env n i s).successful = s.successful + n ∧
      (CommandTester.burst_loop env n i s).failed = s.failed ∧
      (CommandTester.burst_loop env n i s).times.length = s.times.length + n ∧
      (CommandTester.burst_loop env n i s).results.length = s.results.length + n ∧
      (CommandTester.burst_loop env n i s).errors = s.errors ∧
      (CommandTester.burst_loop env n i s).connIdx = s.connIdx := by
  intro n
  induction n with
  | zero =>
    intro i s hc hk
    simp [CommandTester.burst_loop]
  | succ n ih =>
    intro i s hc hk
    obtain ⟨hsucc, hdrop, t, htm, htnz⟩ := hk s.sendIdx le_rfl (by omega)
    have h2 : (CommandTester.burst_iter env i s).2 = true := by
      simp [CommandTester.burst_iter, hc, hsucc, hdrop, htm, htnz]
    have hsu : (CommandTester.burst_iter env i s).1.successful = s.successful + 1 := by
      simp [CommandTester.burst_iter, hc, hsucc, hdrop, htm, htnz]
    have hfa : (CommandTester.burst_iter env i s).1.failed = s.failed := by
      simp [CommandTester.burst_iter, hc, hsucc, hdrop, htm, htnz]
    have hti : (CommandTester.burst_iter env i s).1.times = s.times ++ [t] := by
      simp [CommandTester.burst_iter, hc, hsucc, hdrop, htm, htnz]
    have hre : (CommandTester.burst_iter env i s).1.results =
        s.results ++ [env.sends s.sendIdx] := by
      simp [CommandTester.burst_iter, hc, hsucc, hdrop, htm, htnz]
    have her : (CommandTester.burst_iter env i s).1.errors = s.errors := by
      simp [CommandTester.burst_iter, hc, hsucc, hdrop, htm, htnz]
    have hcx : (CommandTester.burst_iter env i s).1.connIdx = s.connIdx := by
      simp [CommandTester.burst_iter, hc, hsucc, hdrop, htm, htnz]
    have hco : (CommandTester.burst_iter env i s).1.connected = true := by
      simp [CommandTester.burst_iter, hc, hsucc, hdrop, htm, htnz]
    have hsi : (CommandTester.burst_iter env i s).1.sendIdx = s.sendIdx + 1 := by
      simp [CommandTester.burst_iter, hc, hsucc, hdrop, htm, htnz]
    have hloop : CommandTester.burst_loop env (n + 1) i s =
        CommandTester.burst_loop env n (i + 1) (CommandTester.burst_iter env i s).1 := by
      simp only [CommandTester.burst_loop]
      rw [h2]
      simp
    have ihh := ih (i + 1) (CommandTester.burst_iter env i s).1 hco
      (by
        intro k hk1 hk2
        exact hk k (by omega) (by rw [hsi] at hk2; omega))
    rw [hloop]
    refine ⟨?_, ?_, ?_, ?_, ?_, ?_⟩
    · rw [ihh.1, hsu]; omega
    · rw [ihh.2.1, hfa]
    · rw [ihh.2.2.1, hti]; simp; omega
    · rw [ihh.2.2.2.1, hre]; simp; omega
    · rw [ihh.2.2.2.2.1, her]
    · rw [ihh.2.2.2.2.2, hcx]

/-- Helper: the MK3 burst fold over a list of successful sends counts
one success and one latency sample per element and records no errors. -/
theorem mk3_fold_all_ok (env : MK3Protocol.MK3BurstEnv) :
    ∀ (l : List Nat) (acc : Nat × Nat × List Rat × List String),
      (∀ k ∈ l, (env.sends k).success = true) →
      (l.foldl (MK3Protocol.burst_step env) acc).1 = acc.1 + l.length ∧
      (l.foldl (MK3Protocol.burst_step env) acc).2.1 = acc.2.1 ∧
      (l.foldl (MK3Protocol.burst_step env) acc).2.2.1.length =
        acc.2.2.1.length + l.length ∧
      (l.foldl (MK3Protocol.burst_step env) acc).2.2.2 = acc.2.2.2 := by
  intro l
  induction l with
  | nil => intro acc hs; simp
  | cons a l ih =>
    intro acc hs
    have hstep : MK3Protocol.burst_step env acc a =
        (acc.1 + 1, acc.2.1, acc.2.2.1 ++ [(env.sends a).response_time_ms],
         acc.2.2.2) := by
      simp [MK3Protocol.burst_step, hs a (List.mem_cons_self a l)]
    have ihh := ih (MK3Protocol.burst_step env acc a)
      (fun k hk => hs k (List.mem_cons_of_mem a hk))
    rw [List.foldl_cons]
    rw [hstep] at ihh ⊢
    refine ⟨?_, ?_, ?_, ?_⟩
    · rw [ihh.1]; simp; omega
    · rw [ihh.2.1]
    · rw [ihh.2.2.1]; simp; omega
    · rw [ihh.2.2.2]

/-- C6: for every completed burst test, `errorRatePercent` equals
`failed / total * 100`, in both `CommandTester.burst_test` and
`MK3ProtocolTester.burst_test`; and when every one of the `count`
command attempts succeeds (with a non-zero measured latency, in the
`CommandTester` case, where a 0.0 latency is skipped by Python
truthiness), the result reports `errorRatePercent = 0`, `count`
successes and exactly `count` latency samples — one per successful
command. -/
theorem C6_error_rate :
    (∀ (env : CommandTester.NetEnv) (count : Nat) (delay : Rat), 0 < count →
       (CommandTester.burst_test env count delay).error_rate_percent =
         ((CommandTester.burst_test env count delay).failed_commands : Rat) /
           (count : Rat) * 100) ∧
    (∀ (env : CommandTester.NetEnv) (count : Nat) (delay : Rat),
       env.connects 0 = true →
       (∀ k, k < count → (env.sends k).success = true ∧ env.drops k = false ∧
          ∃ t, (env.sends k).total_time_ms = some t ∧ t ≠ 0) →
       (CommandTester.burst_test env count delay).error_rate_percent = 0 ∧
       (CommandTester.burst_test env count delay).successful_commands = count ∧
       (CommandTester.burst_test env count delay).failed_commands = 0 ∧
       (CommandTester.burst_state env count).times.length = count ∧
       (CommandTester.burst_test env count delay).individual_results.length = count) ∧
    (∀ (menv : MK3Protocol.MK3BurstEnv) (count : Nat), 0 < count →
       (MK3Protocol.burst_test menv count).error_rate_percent =
         ((MK3Protocol.burst_test menv count).failed : Rat) / (count : Rat) * 100) ∧
    (∀ (menv : MK3Protocol.MK3BurstEnv) (count : Nat),
       menv.connect_ok = true →
       (∀ k, k < count → (menv.sends k).success = true) →
       (MK3Protocol.burst_test menv count).error_rate_percent = 0 ∧
       (MK3Protocol.burst_test menv count).successful = count ∧
       (MK3Protocol.burst_test menv count).failed = 0 ∧
       (MK3Protocol.burst_test menv count).response_times.length = count) := by
  refine ⟨?_, ?_, ?_, ?_⟩
  · intro env count delay hc
    by_cases h : env.connects 0
    · simp [CommandTester.burst_test, h]
    · have hnz : (count : Rat) ≠ 0 := by positivity
      simp [CommandTester.burst_test, h, div_mul_eq_mul_div, div_self hnz]
  · intro env count delay hconn hall
    have hl := burst_loop_all_ok env count 0 {} rfl
      (by intro k hk1 hk2; exact hall k (by simpa using hk2))
    have hs0 : (CommandTester.burst_state env count).failed = 0 := by
      simpa [CommandTester.burst_state] using hl.2.1
    refine ⟨?_, ?_, ?_, ?_, ?_⟩
    · simp [CommandTester.burst_test, hconn, CommandTester.burst_state] at hs0 ⊢
      simp [hs0]
    · simp [CommandTester.burst_test, hconn]
      simpa [CommandTester.burst_state] using hl.1
    · simp [CommandTester.burst_test, hconn]
      exact hs0
    · simpa [CommandTester.burst_state] using hl.2.2.1
    · simp [CommandTester.burst_test, hconn]
      simpa [CommandTester.burst_state] using hl.2.2.2.1
  · intro menv count hc
    by_cases h : menv.connect_ok
    · simp [MK3Protocol.burst_test, h]
    · have hnz : (count : Rat) ≠ 0 := by positivity
      simp [MK3Protocol.burst_test, h, div_mul_eq_mul_div, div_self hnz]
  · intro menv count hconn hall
    have hf := mk3_fold_all_ok menv (List.range count) (0, 0, [], [])
      (by intro k hk; exact hall k (List.mem_range.mp hk))
    refine ⟨?_, ?_, ?_, ?_⟩
    · simp [MK3Protocol.burst_test, hconn]
      simp [hf.2.1]
    · simp [MK3Protocol.burst_test, hconn]
      simpa using hf.1
    · simp [MK3Protocol.burst_test, hconn]
      exact hf.2.1
    · simp [MK3Protocol.burst_test, hconn]
      simpa using hf.2.2.1

/-- C6 witness: the theorem instantiated on the always-succeeding
oracles with `count = 4` and `count = 3`. -/
theorem C6_witness :
    (CommandTester.burst_test passNetEnv 4 0).error_rate_percent = 0 ∧
    (CommandTester.burst_test passNetEnv 4 0).successful_commands = 4 ∧
    (CommandTester.burst_state passNetEnv 4).times.length = 4 ∧
    (MK3Protocol.burst_test passMK3Env 3).error_rate_percent = 0 ∧
    (MK3Protocol.burst_test passMK3Env 3).response_times.length = 3 ∧
    (CommandTester.burst_test failSendNetEnv 2 0).error_rate_percent =
      ((CommandTester.burst_test failSendNetEnv 2 0).failed_commands : Rat) / 2 * 100 := by
  have h2 := C6_error_rate.2.1 passNetEnv 4 0 rfl
    (by intro k hk; exact ⟨rfl, rfl, 5, rfl, by norm_num⟩)
  have h4 := C6_error_rate.2.2.2 passMK3Env 3 rfl (by intro k hk; exact rfl)
  have h1 := C6_error_rate.1 failSendNetEnv 2 0 (by norm_num)
  exact ⟨h2.1, h2.2.1, h2.2.2.2.1, h4.1, h4.2.2.2, by simpa using h1⟩

/-- C2 counterexample: with `count = 2`, a first send that fails and
drops the connection, and a refused reconnect attempt, the burst test
records `failed = 1`, `successful = 0`, so `failed + successful = 1`,
which is not `totalCommands = 2`: the aborted iteration is neither
executed nor recorded as failed (and the error rate is 50, not 100). -/
theorem C2_counterexample :
    (CommandTester.burst_test dropNetEnv 2 0).failed_commands = 1 ∧
    (CommandTester.burst_test dropNetEnv 2 0).successful_commands = 0 ∧
    (CommandTester.burst_test dropNetEnv 2 0).total_commands = 2 ∧
    (1 : Nat) + 0 ≠ 2 ∧
    (CommandTester.burst_test dropNetEnv 2 0).error_rate_percent = 50 := by
  refine ⟨by decide, by decide, by decide, by decide, ?_⟩
  norm_num [CommandTester.burst_test, CommandTester.burst_state,
    CommandTester.burst_loop, CommandTester.burst_iter, dropNetEnv]

/-- Helper: one burst iteration on a live connection whose send does not
drop the connection continues the loop, consumes one send index, keeps
the connect cursor, and accounts the command exactly once. -/
theorem burst_iter_nodrop (env : CommandTester.NetEnv) (i : Nat)
    (s : CommandTester.BurstState) (hc : s.connected = true)
    (hd : env.drops s.sendIdx = false) :
    (CommandTester.burst_iter env i s).2 = true ∧
    (CommandTester.burst_iter env i s).1.connected = true ∧
    (CommandTester.burst_iter env i s).1.sendIdx = s.sendIdx + 1 ∧
    (CommandTester.burst_iter env i s).1.results.length = s.results.length + 1 ∧
    (CommandTester.burst_iter env i s).1.connIdx = s.connIdx ∧
    (CommandTester.burst_iter env i s).1.failed +
      (CommandTester.burst_iter env i s).1.successful =
      s.failed + s.successful + 1 := by
  by_cases hs : (env.sends s.sendIdx).success <;>
    simp [CommandTester.burst_iter, hc, hd, hs] <;> omega

/-- Helper: one burst iteration whose send drops the connection and
whose reconnect attempt succeeds continues the loop and consumes one
connect index. -/
theorem burst_iter_drop_reconnect (env : CommandTester.NetEnv) (i : Nat)
    (s : CommandTester.BurstState) (hc : s.connected = true)
    (hd : env.drops s.sendIdx = true)
    (hr : env.connects s.connIdx = true) :
    (CommandTester.burst_iter env i s).2 = true ∧
    (CommandTester.burst_iter env i s).1.connected = true ∧
    (CommandTester.burst_iter env i s).1.sendIdx = s.sendIdx + 1 ∧
    (CommandTester.burst_iter env i s).1.results.length = s.results.length + 1 ∧
    (CommandTester.burst_iter env i s).1.connIdx = s.connIdx + 1 ∧
    (CommandTester.burst_iter env i s).1.failed +
      (CommandTester.burst_iter env i s).1.successful =
      s.failed + s.successful + 1 := by
  by_cases hs : (env.sends s.sendIdx).success <;>
    simp [CommandTester.burst_iter, hc, hd, hs, hr] <;> omega

/-- Helper: one burst iteration whose send drops the connection and
whose reconnect attempt fails breaks the loop, still consuming exactly
one connect index and recording "Reconnection failed" last. -/
theorem burst_iter_drop_fail (env : CommandTester.NetEnv) (i : Nat)
    (s : CommandTester.BurstState) (hc : s.connected = true)
    (hd : env.drops s.sendIdx = true)
    (hr : env.connects s.connIdx = false) :
    (CommandTester.burst_iter env i s).2 = false ∧
    (CommandTester.burst_iter env i s).1.sendIdx = s.sendIdx + 1 ∧
    (CommandTester.burst_iter env i s).1.results.length = s.results.length + 1 ∧
    (CommandTester.burst_iter env i s).1.connIdx = s.connIdx + 1 ∧
    (CommandTester.burst_iter env i s).1.failed +
      (CommandTester.burst_iter env i s).1.successful =
      s.failed + s.successful + 1 ∧
    (CommandTester.burst_iter env i s).1.errors.getLast? =
      some "Reconnection failed" := by
  by_cases hs : (env.sends s.sendIdx).success <;>
    cases herr : (env.sends s.sendIdx).error <;>
    simp [CommandTester.burst_iter, hc, hd, hs, hr, herr] <;> omega

/-- Helper: unfolding of one step of the burst loop. -/
theorem burst_loop_succ (env : CommandTester.NetEnv) (n i : Nat)
    (s : CommandTester.BurstState) :
    CommandTester.burst_loop env (n + 1) i s =
      if (CommandTester.burst_iter env i s).2 then
        CommandTester.burst_loop env n (i + 1) (CommandTester.burst_iter env i s).1
      else (CommandTester.burst_iter env i s).1 := by
  simp only [CommandTester.burst_loop]

/-- Helper: loop invariant of the burst loop.  On a live connection,
the executed iterations are exactly the recorded individual results:
`failed + successful` equals the number of recorded results, one send
index is consumed per recorded result, the connect cursor counts
exactly one reconnect attempt per executed send that dropped the
connection, at most `n` further results are recorded, and a shortfall
can only come from a failed reconnect attempt, recorded last. -/
theorem burst_loop_invariant (env : CommandTester.NetEnv) :
    ∀ (n i : Nat) (s : CommandTester.BurstState),
      s.connected = true →
      s.failed + s.successful = s.results.length →
      s.sendIdx = s.results.length →
      s.connIdx =
        1 + ((List.range s.sendIdx).filter (fun k => env.drops k)).length →
      (CommandTester.burst_loop env n i s).failed +
        (CommandTester.burst_loop env n i s).successful =
        (CommandTester.burst_loop env n i s).results.length ∧
      (CommandTester.burst_loop env n i s).sendIdx =
        (CommandTester.burst_loop env n i s).results.length ∧
      (CommandTester.burst_loop env n i s).connIdx =
        1 + ((List.range (CommandTester.burst_loop env n i s).sendIdx).filter
              (fun k => env.drops k)).length ∧
      (CommandTester.burst_loop env n i s).results.length ≤ s.results.length + n ∧
      ((CommandTester.burst_loop env n i s).results.length < s.results.length + n →
        (CommandTester.burst_loop env n i s).errors.getLast? =
          some "Reconnection failed") := by
  intro n
  induction n with
  | zero =>
    intro i s hc h1 h2 h3
    simp [CommandTester.burst_loop]
    exact ⟨h1, h2, h3⟩
  | succ n ih =>
    intro i s hc h1 h2 h3
    have hrange : List.range (s.sendIdx + 1) =
        List.range s.sendIdx ++ [s.sendIdx] := by
      simp [List.range_succ]
    by_cases hd : env.drops s.sendIdx
    · by_cases hr : env.connects s.connIdx
      · -- drop, reconnect succeeds: continue
        have hit := burst_iter_drop_reconnect env i s hc hd hr
        rw [burst_loop_succ, hit.1, if_pos rfl]
        have ihh := ih (i + 1) (CommandTester.burst_iter env i s).1 hit.2.1
          (by omega)
          (by rw [hit.2.2.1, hit.2.2.2.1]; omega)
          (by
            rw [hit.2.2.2.2.1, hit.2.2.1, hrange]
            simp [List.filter_append, hd]
            omega)
        refine ⟨ihh.1, ihh.2.1, ihh.2.2.1, by have := ihh.2.2.2.1; omega,
          fun hlt => ihh.2.2.2.2 (by omega)⟩
      · -- drop, reconnect fails: break
        have hit := burst_iter_drop_fail env i s hc hd (by simpa using hr)
        rw [burst_loop_succ, hit.1, if_neg (by simp)]
        refine ⟨by omega, by omega, ?_, by omega, fun _ => hit.2.2.2.2.2⟩
        rw [hit.2.2.2.1, hit.2.1, hrange]
        simp [List.filter_append, hd]
        omega
    · -- no drop: continue
      have hit := burst_iter_nodrop env i s hc (by simpa using hd)
      rw [burst_loop_succ, hit.1, if_pos rfl]
      have ihh := ih (i + 1) (CommandTester.burst_iter env i s).1 hit.2.1
        (by omega)
        (by rw [hit.2.2.1, hit.2.2.2.1]; omega)
        (by
          rw [hit.2.2.2.2.1, hit.2.2.1, hrange]
          simp [List.filter_append, hd]
          omega)
      refine ⟨ihh.1, ihh.2.1, ihh.2.2.1, by have := ihh.2.2.2.1; omega,
        fun hlt => ihh.2.2.2.2 (by omega)⟩

/-- C2 amended: when the Session is reported disconnected after an
iteration, the harness makes exactly one reconnect attempt per detected
disconnection (the connect cursor exceeds the initial connect by
exactly the number of executed sends that dropped the connection) and
continues if it succeeds; if a reconnect attempt fails, the remaining
iterations are neither executed nor recorded as failed — so
`failed + successful` equals the number of executed iterations, which
can be less than `totalCommands`, any shortfall is flagged by a final
"Reconnection failed" error entry — and the error rate is still
`failed / totalCommands * 100`, counting only executed failures. -/
theorem C2_burst_reconnect_amended (env : CommandTester.NetEnv)
    (count : Nat) (delay : Rat) (hconn : env.connects 0 = true) :
    (CommandTester.burst_test env count delay).failed_commands +
      (CommandTester.burst_test env count delay).successful_commands =
      (CommandTester.burst_test env count delay).individual_results.length ∧
    (CommandTester.burst_test env count delay).individual_results.length ≤ count ∧
    (CommandTester.burst_state env count).connIdx =
      1 + ((List.range (CommandTester.burst_state env count).sendIdx).filter
            (fun k => env.drops k)).length ∧
    (CommandTester.burst_test env count delay).error_rate_percent =
      ((CommandTester.burst_test env count delay).failed_commands : Rat) /
        (count : Rat) * 100 ∧
    ((CommandTester.burst_test env count delay).individual_results.length < count →
      (CommandTester.burst_test env count delay).errors.getLast? =
        some "Reconnection failed") := by
  have hinv := burst_loop_invariant env count 0 {} rfl (by simp) (by simp) (by simp)
  have hbs : CommandTester.burst_state env count =
      CommandTester.burst_loop env count 0 {} := rfl
  constructor
  · simp [CommandTester.burst_test, hconn, CommandTester.burst_state]
    omega
  constructor
  · simp [CommandTester.burst_test, hconn, CommandTester.burst_state]
    have := hinv.2.2.2.1
    simpa using this
  constructor
  · rw [hbs]
    exact hinv.2.2.1
  constructor
  · simp [CommandTester.burst_test, hconn, CommandTester.burst_state]
  · intro hlt
    simp [CommandTester.burst_test, hconn, CommandTester.burst_state] at hlt ⊢
    exact hinv.2.2.2.2 (by simpa using hlt)

/-- C2 witness: the amended theorem instantiated on the resetting
connection with `count = 2`: one executed iteration, one reconnect
attempt for one dropped send, a trailing "Reconnection failed", and a
50 percent error rate. -/
theorem C2_witness :
    (CommandTester.burst_test dropNetEnv 2 0).failed_commands +
      (CommandTester.burst_test dropNetEnv 2 0).successful_commands =
      (CommandTester.burst_test dropNetEnv 2 0).individual_results.length ∧
    (CommandTester.burst_test dropNetEnv 2 0).individual_results.length ≤ 2 ∧
    ((CommandTester.burst_test dropNetEnv 2 0).individual_results.length < 2 →
      (CommandTester.burst_test dropNetEnv 2 0).errors.getLast? =
        some "Reconnection failed") := by
  have h := C2_burst_reconnect_amended dropNetEnv 2 0 rfl
  exact ⟨h.1, h.2.1, h.2.2.2.2⟩

/-- Helper: the delay-search fold records one entry per candidate, in
order, regardless of which candidates pass. -/
theorem delay_fold_tests (envs : Nat → CommandTester.NetEnv) (c : Nat) (m : Rat) :
    ∀ (l : List (Nat × Rat)) (ac : List CommandTester.DelayTestEntry × Option Rat),
      (l.foldl (CommandTester.delay_step envs c m) ac).1 =
        ac.1 ++ l.map (fun p =>
          CommandTester.mkEntry p.2 (CommandTester.burst_test (envs p.1) c p.2)) := by
  intro l
  induction l with
  | nil => intro ac; simp
  | cons p l ih =>
    intro ac
    have h1 : (CommandTester.delay_step envs c m ac p).1 =
        ac.1 ++ [CommandTester.mkEntry p.2
          (CommandTester.burst_test (envs p.1) c p.2)] := rfl
    rw [List.foldl_cons, ih, h1]
    simp

/-- Helper: the second fold component is the first candidate (in list
order) whose burst test passed the error-rate threshold. -/
theorem delay_fold_rec (envs : Nat → CommandTester.NetEnv) (c : Nat) (m : Rat) :
    ∀ (l : List (Nat × Rat)) (ac : List CommandTester.DelayTestEntry × Option Rat),
      (l.foldl (CommandTester.delay_step envs c m) ac).2 =
        match ac.2 with
        | some d => some d
        | none =>
          (l.find? (fun p =>
            decide ((CommandTester.burst_test (envs p.1) c p.2).error_rate_percent
              ≤ m))).map (fun p => p.2) := by
  intro l
  induction l with
  | nil => intro ac; cases h : ac.2 <;> simp [h]
  | cons p l ih =>
    intro ac
    rw [List.foldl_cons, ih]
    cases hac : ac.2 with
    | some d =>
      have h2 : (CommandTester.delay_step envs c m ac p).2 = some d := by
        simp [CommandTester.delay_step, hac]
      rw [h2]
    | none =>
      by_cases hp :
        (CommandTester.burst_test (envs p.1) c p.2).error_rate_percent ≤ m
      · have h2 : (CommandTester.delay_step envs c m ac p).2 = some p.2 := by
          simp [CommandTester.delay_step, hac, hp]
        rw [h2]
        simp [List.find?_cons, hp]
      · have h2 : (CommandTester.delay_step envs c m ac p).2 = none := by
          simp [CommandTester.delay_step, hac, hp]
        rw [h2]
        simp [List.find?_cons, hp]

/-- C1 counterexample: over the candidate list `[50]` with every test
passing, the first (smallest, and only) candidate whose error rate is
within the threshold is 50, yet `find_optimal_delay` returns
`recommendedDelayMs = 0` — the final all-passed check overwrites the
recommendation with 0 even when 0 is not a candidate. -/
theorem C1_counterexample :
    (CommandTester.find_optimal_delay allPassEnvs 2 [50] 5).recommended_delay_ms =
      some 0 ∧
    some (0 : Rat) ≠ some (50 : Rat) := by
  constructor
  · norm_num [CommandTester.find_optimal_delay, CommandTester.delay_step,
      CommandTester.mkEntry, CommandTester.burst_test, CommandTester.burst_state,
      CommandTester.burst_loop, CommandTester.burst_iter, allPassEnvs, passNetEnv,
      List.enum, List.enumFrom]
  · norm_num

/-- C1 amended: `find_optimal_delay` runs a burst test at each candidate
delay and records one per-delay result entry for every candidate, even
after a passing one is found.  `recommendedDelayMs` is the first
candidate (in list order) whose error rate is within the threshold,
except that when the first candidate's own test passes, `allPassed` is
set and the recommendation is overwritten with 0 (even if 0 is not a
candidate).  In particular, over candidates `[0, 50, 100]` where only
delays ≥ 50 ms pass, it returns `recommendedDelayMs = 50`, not 0, with
a result entry for every candidate. -/
theorem C1_delay_search_amended (envs : Nat → CommandTester.NetEnv)
    (count : Nat) (delays : List Rat) (maxRate : Rat) :
    (CommandTester.find_optimal_delay envs count delays maxRate).tests =
      delays.enum.map (fun p => CommandTester.mkEntry p.2
        (CommandTester.burst_test (envs p.1) count p.2)) ∧
    (CommandTester.find_optimal_delay envs count delays maxRate).all_passed =
      (match delays with
       | [] => false
       | d0 :: _ =>
         decide ((CommandTester.burst_test (envs 0) count d0).error_rate_percent
           ≤ maxRate)) ∧
    (CommandTester.find_optimal_delay envs count delays maxRate).recommended_delay_ms =
      (match delays with
       | [] => none
       | d0 :: _ =>
         if (CommandTester.burst_test (envs 0) count d0).error_rate_percent
             ≤ maxRate then some 0
         else
           (delays.enum.find? (fun p =>
             decide ((CommandTester.burst_test (envs p.1) count
               p.2).error_rate_percent ≤ maxRate))).map (fun p => p.2)) ∧
    (CommandTester.find_optimal_delay delayScenarioEnvs 2 [0, 50, 100]
      5).tests.length = 3 ∧
    (CommandTester.find_optimal_delay delayScenarioEnvs 2 [0, 50, 100]
      5).recommended_delay_ms = some 50 ∧
    (CommandTester.find_optimal_delay delayScenarioEnvs 2 [0, 50, 100]
      5).all_passed = false := by
  have hgen : ∀ (envs2 : Nat → CommandTester.NetEnv) (c2 : Nat)
      (ds : List Rat) (m2 : Rat),
      (CommandTester.find_optimal_delay envs2 c2 ds m2).tests =
        ds.enum.map (fun p => CommandTester.mkEntry p.2
          (CommandTester.burst_test (envs2 p.1) c2 p.2)) ∧
      (CommandTester.find_optimal_delay envs2 c2 ds m2).all_passed =
        (match ds with
         | [] => false
         | d0 :: _ =>
           decide ((CommandTester.burst_test (envs2 0) c2 d0).error_rate_percent
             ≤ m2)) ∧
      (CommandTester.find_optimal_delay envs2 c2 ds m2).recommended_delay_ms =
        (match ds with
         | [] => none
         | d0 :: _ =>
           if (CommandTester.burst_test (envs2 0) c2 d0).error_rate_percent
               ≤ m2 then some 0
           else
             (ds.enum.find? (fun p =>
               decide ((CommandTester.burst_test (envs2 p.1) c2
                 p.2).error_rate_percent ≤ m2))).map (fun p => p.2)) := by
    intro envs2 c2 ds m2
    have ht := delay_fold_tests envs2 c2 m2 ds.enum ([], none)
    have hr := delay_fold_rec envs2 c2 m2 ds.enum ([], none)
    cases ds with
    | nil =>
      simp [CommandTester.find_optimal_delay]
    | cons d0 rest =>
      simp only [CommandTester.find_optimal_delay]
      rw [ht, hr]
      simp only [List.enum_cons, List.map_cons, List.head?_cons, List.nil_append]
      by_cases hp :
        (CommandTester.burst_test (envs2 0) c2 d0).error_rate_percent ≤ m2
      · simp [CommandTester.mkEntry, hp, List.enum_cons]
      · simp [CommandTester.mkEntry, hp, List.enum_cons, List.find?_cons]
  refine ⟨(hgen envs count delays maxRate).1,
    (hgen envs count delays maxRate).2.1,
    (hgen envs count delays maxRate).2.2, ?_, ?_, ?_⟩
  · rw [(hgen delayScenarioEnvs 2 [0, 50, 100] 5).1]
    simp [List.enum, List.enumFrom]
  · have hfail :
        (CommandTester.burst_test failSendNetEnv 2 0).error_rate_percent = 100 := by
      norm_num [CommandTester.burst_test, CommandTester.burst_state,
        CommandTester.burst_loop, CommandTester.burst_iter, failSendNetEnv]
    have hpass : ∀ d : Rat,
        (CommandTester.burst_test passNetEnv 2 d).error_rate_percent = 0 := by
      intro d
      norm_num [CommandTester.burst_test, CommandTester.burst_state,
        CommandTester.burst_loop, CommandTester.burst_iter, passNetEnv]
    rw [(hgen delayScenarioEnvs 2 [0, 50, 100] 5).2.2]
    have he0 : delayScenarioEnvs 0 = failSendNetEnv := by
      simp [delayScenarioEnvs]
    have he1 : delayScenarioEnvs 1 = passNetEnv := by
      simp [delayScenarioEnvs]
    simp only [he0, hfail, List.enum, List.enumFrom, List.find?_cons]
    norm_num [he0, he1, hfail, hpass]
  · have hfail :
        (CommandTester.burst_test failSendNetEnv 2 0).error_rate_percent = 100 := by
      norm_num [CommandTester.burst_test, CommandTester.burst_state,
        CommandTester.burst_loop, CommandTester.burst_iter, failSendNetEnv]
    rw [(hgen delayScenarioEnvs 2 [0, 50, 100] 5).2.1]
    have he0 : delayScenarioEnvs 0 = failSendNetEnv := by
      simp [delayScenarioEnvs]
    simp [he0, hfail]
    norm_num

/-- Helper: `parse_global_protect` yields a value only for successful
responses. -/
theorem parse_global_protect_some (o : MK3Protocol.QueryOutcome)
    (g : MK3Protocol.MK3GlobalProtectStatus)
    (h : MK3Protocol.parse_global_protect o = some g) : o.success = true := by
  by_cases hs : o.success
  · exact hs
  · simp [MK3Protocol.parse_global_protect, hs] at h

/-- Helper: the per-group fold aggregates `has_any_fault` as the OR of
the accumulator with the group-level fault flags. -/
theorem group_fold_fault :
    ∀ (l : List MK3Protocol.MK3GroupStatus)
      (acc : List (String × List Nat) × Bool × List String),
      (l.foldl MK3Protocol.group_fold_step acc).2.1 =
        (acc.2.1 || l.any MK3Protocol.groupFault) := by
  intro l
  induction l with
  | nil => intro acc; simp
  | cons g l ih =>
    intro acc
    rw [List.foldl_cons, ih]
    cases hps : g.protect_status with
    | none => simp [MK3Protocol.group_fold_step, MK3Protocol.groupFault, hps]
    | some p =>
      by_cases hpf : p.has_any_fault <;>
        simp [MK3Protocol.group_fold_step, MK3Protocol.groupFault, hps, hpf]

/-- Helper: field effects of the power stage. -/
theorem diag_power_step_fields (env : MK3Protocol.DeviceEnv)
    (status : MK3Protocol.MK3DeviceStatus) :
    (MK3Protocol.diag_power_step env status).channels = status.channels ∧
    (MK3Protocol.diag_power_step env status).groups = status.groups ∧
    (MK3Protocol.diag_power_step env status).global_protect = status.global_protect ∧
    (MK3Protocol.diag_power_step env status).thermal_status = status.thermal_status ∧
    (MK3Protocol.diag_power_step env status).has_any_fault = status.has_any_fault ∧
    (MK3Protocol.diag_power_step env status).fault_summary = status.fault_summary ∧
    (MK3Protocol.diag_power_step env status).is_reachable = status.is_reachable ∧
    (MK3Protocol.diag_power_step env status).response_times =
      status.response_times ++ [("power_query", env.power.time)] ∧
    (MK3Protocol.diag_power_step env status).power_status =
      (if env.power.success then MK3Protocol.parse_power env.power
       else status.power_status) ∧
    (MK3Protocol.diag_power_step env status).errors =
      (if env.power.success then status.errors
       else status.errors ++
         ["Power query failed: " ++ env.power.error.getD "None"]) := by
  by_cases hp : env.power.success <;> simp [MK3Protocol.diag_power_step, hp]

/-- Helper: field effects of the global-protect stage. -/
theorem diag_global_step_fields (env : MK3Protocol.DeviceEnv)
    (status : MK3Protocol.MK3DeviceStatus) :
    (MK3Protocol.diag_global_step env status).channels = status.channels ∧
    (MK3Protocol.diag_global_step env status).groups = status.groups ∧
    (MK3Protocol.diag_global_step env status).thermal_status = status.thermal_status ∧
    (MK3Protocol.diag_global_step env status).power_status = status.power_status ∧
    (MK3Protocol.diag_global_step env status).errors = status.errors ∧
    (MK3Protocol.diag_global_step env status).is_reachable = status.is_reachable ∧
    (MK3Protocol.diag_global_step env status).response_times =
      status.response_times ++ [("global_protect_query", env.global_protect.time)] ∧
    (MK3Protocol.diag_global_step env status).global_protect =
      (match MK3Protocol.parse_global_protect env.global_protect with
       | some g => some g
       | none => status.global_protect) ∧
    (MK3Protocol.diag_global_step env status).has_any_fault =
      (status.has_any_fault ||
        ((MK3Protocol.parse_global_protect env.global_protect).map
          (fun g => g.has_any_fault)).getD false) := by
  cases hgp : MK3Protocol.parse_global_protect env.global_protect with
  | none => simp [MK3Protocol.diag_global_step, hgp]
  | some g =>
    have hsucc := parse_global_protect_some env.global_protect g hgp
    by_cases hgf : g.has_any_fault <;>
      simp [MK3Protocol.diag_global_step, hgp, hsucc, hgf]

/-- Helper: field effects of the thermal stage. -/
theorem diag_thermal_step_fields (env : MK3Protocol.DeviceEnv)
    (status : MK3Protocol.MK3DeviceStatus) :
    (MK3Protocol.diag_thermal_step env status).channels = status.channels ∧
    (MK3Protocol.diag_thermal_step env status).groups = status.groups ∧
    (MK3Protocol.diag_thermal_step env status).global_protect = status.global_protect ∧
    (MK3Protocol.diag_thermal_step env status).power_status = status.power_status ∧
    (MK3Protocol.diag_thermal_step env status).errors = status.errors ∧
    (MK3Protocol.diag_thermal_step env status).is_reachable = status.is_reachable ∧
    (MK3Protocol.diag_thermal_step env status).response_times =
      status.response_times ++ [("thermal_query", env.thermal.time)] ∧
    (MK3Protocol.diag_thermal_step env status).thermal_status =
      (if env.thermal.success && (MK3Protocol.parse_thermal env.thermal).isSome then
        MK3Protocol.parse_thermal env.thermal
       else status.thermal_status) ∧
    (MK3Protocol.diag_thermal_step env status).has_any_fault =
      (status.has_any_fault ||
        (if env.thermal.success then
          ((MK3Protocol.parse_thermal env.thermal).map
            (fun t => t.is_critical)).getD false
         else false)) := by
  cases hth : MK3Protocol.parse_thermal env.thermal with
  | none => by_cases hs : env.thermal.success <;>
      simp [MK3Protocol.diag_thermal_step, hth, hs]
  | some t =>
    by_cases hs : env.thermal.success <;>
      by_cases hcr : t.is_critical <;>
      by_cases hw : t.is_warning <;>
      simp [MK3Protocol.diag_thermal_step, hth, hs, hcr, hw]

/-- Helper: field effects of the group stage. -/
theorem diag_groups_step_fields (env : MK3Protocol.DeviceEnv) (n : Nat)
    (status : MK3Protocol.MK3DeviceStatus) :
    (MK3Protocol.diag_groups_step env n status).channels = status.channels ∧
    (MK3Protocol.diag_groups_step env n status).global_protect =
      status.global_protect ∧
    (MK3Protocol.diag_groups_step env n status).thermal_status =
      status.thermal_status ∧
    (MK3Protocol.diag_groups_step env n status).power_status = status.power_status ∧
    (MK3Protocol.diag_groups_step env n status).errors = status.errors ∧
    (MK3Protocol.diag_groups_step env n status).is_reachable = status.is_reachable ∧
    (MK3Protocol.diag_groups_step env n status).response_times =
      status.response_times ∧
    (MK3Protocol.diag_groups_step env n status).groups =
      MK3Protocol.query_all_group_status env n ∧
    (MK3Protocol.diag_groups_step env n status).has_any_fault =
      (status.has_any_fault ||
        (MK3Protocol.query_all_group_status env n).any MK3Protocol.groupFault) := by
  refine ⟨rfl, rfl, rfl, rfl, rfl, rfl, rfl, rfl, ?_⟩
  simp only [MK3Protocol.diag_groups_step]
  exact group_fold_fault _ _

/-- Helper: `run_full_diagnostic` on an unreachable device returns
immediately with only the probe result and a connection error; no query
fields are populated. -/
theorem rfd_unreachable (env : MK3Protocol.DeviceEnv) (n : Nat)
    (h : env.probe_ok = false) :
    MK3Protocol.run_full_diagnostic env n =
      { ip := env.ip, port := env.port, is_reachable := false
        response_times := [("connectivity", env.probe_time)]
        errors := ["Connection failed: " ++ env.probe_error] } := by
  simp [MK3Protocol.run_full_diagnostic, h]

/-- Helper: field values of `run_full_diagnostic` on a reachable
device, as functions of the device oracle. -/
theorem rfd_reachable_fields (env : MK3Protocol.DeviceEnv) (n : Nat)
    (h : env.probe_ok = true) :
    (MK3Protocol.run_full_diagnostic env n).is_reachable = true ∧
    (MK3Protocol.run_full_diagnostic env n).channels = [] ∧
    (MK3Protocol.run_full_diagnostic env n).response_times =
      [("connectivity", env.probe_time), ("power_query", env.power.time),
       ("global_protect_query", env.global_protect.time),
       ("thermal_query", env.thermal.time)] ∧
    (MK3Protocol.run_full_diagnostic env n).groups =
      MK3Protocol.query_all_group_status env n ∧
    (MK3Protocol.run_full_diagnostic env n).errors =
      (if env.power.success then []
       else ["Power query failed: " ++ env.power.error.getD "None"]) ∧
    (MK3Protocol.run_full_diagnostic env n).power_status =
      (if env.power.success then MK3Protocol.parse_power env.power else none) ∧
    (MK3Protocol.run_full_diagnostic env n).global_protect =
      MK3Protocol.parse_global_protect env.global_protect ∧
    (MK3Protocol.run_full_diagnostic env n).thermal_status =
      (if env.thermal.success then MK3Protocol.parse_thermal env.thermal
       else none) ∧
    (MK3Protocol.run_full_diagnostic env n).has_any_fault =
      (((MK3Protocol.parse_global_protect env.global_protect).map
          (fun g => g.has_any_fault)).getD false ||
       (if env.thermal.success then
          ((MK3Protocol.parse_thermal env.thermal).map
            (fun t => t.is_critical)).getD false
        else false) ||
       (MK3Protocol.query_all_group_status env n).any MK3Protocol.groupFault) := by
  have hrun : MK3Protocol.run_full_diagnostic env n =
      MK3Protocol.diag_groups_step env n (MK3Protocol.diag_thermal_step env
        (MK3Protocol.diag_global_step env (MK3Protocol.diag_power_step env
          { ip := env.ip, port := env.port, is_reachable := true
            response_times := [("connectivity", env.probe_time)] }))) := by
    simp [MK3Protocol.run_full_diagnostic, h]
  obtain ⟨Pch, Pgr, Pgp, Pth, Pha, Pfs, Pre, Prt, Ppw, Per⟩ :=
    diag_power_step_fields env
      { ip := env.ip, port := env.port, is_reachable := true
        response_times := [("connectivity", env.probe_time)] }
  obtain ⟨Gch, Ggr, Gth, Gpw, Ger, Gre, Grt, Ggp, Gha⟩ :=
    diag_global_step_fields env (MK3Protocol.diag_power_step env
      { ip := env.ip, port := env.port, is_reachable := true
        response_times := [("connectivity", env.probe_time)] })
  obtain ⟨Tch, Tgr, Tgp, Tpw, Ter, Tre, Trt, Tth, Tha⟩ :=
    diag_thermal_step_fields env (MK3Protocol.diag_global_step env
      (MK3Protocol.diag_power_step env
        { ip := env.ip, port := env.port, is_reachable := true
          response_times := [("connectivity", env.probe_time)] }))
  obtain ⟨Rch, Rgp, Rth, Rpw, Rer, Rre, Rrt, Rgr, Rha⟩ :=
    diag_groups_step_fields env n (MK3Protocol.diag_thermal_step env
      (MK3Protocol.diag_global_step env (MK3Protocol.diag_power_step env
        { ip := env.ip, port := env.port, is_reachable := true
          response_times := [("connectivity", env.probe_time)] })))
  rw [hrun]
  refine ⟨?_, ?_, ?_, ?_, ?_, ?_, ?_, ?_, ?_⟩
  · rw [Rre, Tre, Gre, Pre]
  · rw [Rch, Tch, Gch, Pch]
  · rw [Rrt, Trt, Grt, Prt]
    simp
  · exact Rgr
  · rw [Rer, Ter, Ger, Per]
    by_cases hp : env.power.success <;> simp [hp]
  · rw [Rpw, Tpw, Gpw, Ppw]
  · rw [Rgp, Tgp, Ggp, Pgp]
    cases hg : MK3Protocol.parse_global_protect env.global_protect <;> simp
  · rw [Rth, Tth, Gth, Pth]
    cases ht : MK3Protocol.parse_thermal env.thermal <;>
      by_cases hs : env.thermal.success <;> simp [hs, ht]
  · rw [Rha, Tha, Gha, Pha]
    simp [Bool.or_assoc]

/-- C3 counterexample: against a reachable healthy device with 8
groups, `run_full_diagnostic` populates all 8 group statuses but
returns an empty `channels` list — the per-channel short-circuit,
over-temperature and DSP-preset queries of the claim are never
performed by this function. -/
theorem C3_counterexample :
    (MK3Protocol.run_full_diagnostic healthyDeviceEnv 8).is_reachable = true ∧
    (MK3Protocol.run_full_diagnostic healthyDeviceEnv 8).groups.length = 8 ∧
    (MK3Protocol.run_full_diagnostic healthyDeviceEnv 8).channels = [] ∧
    (MK3Protocol.run_full_diagnostic healthyDeviceEnv 8).channels.length ≠ 8 := by
  decide

/-- Helper: a failed query parses to no global-protect value. -/
theorem parse_global_protect_of_failure (o : MK3Protocol.QueryOutcome)
    (h : o.success = false) : MK3Protocol.parse_global_protect o = none := by
  simp [MK3Protocol.parse_global_protect, h]

/-- C3 amended: `runFullDiagnostic` first performs a timed connectivity
probe; if the probe fails it returns immediately with
`isReachable = false` and a recorded error and attempts no further
queries.  If it succeeds, it queries power status, then global fault
bits, then thermal state (treating an unsupported thermal query as a
non-fatal outcome distinct from a communication error), then volume,
mute, source and per-group fault bits for each group index in
`0..min(groupCount, 8) - 1`, assembling them into the returned
DeviceStatus.  Per-channel short-circuit, over-temperature and DSP
preset queries are not performed: the `channels` list is always
empty. -/
theorem C3_diagnostic_sequence_amended (env : MK3Protocol.DeviceEnv)
    (n : Nat) (o : MK3Protocol.QueryOutcome) :
    (env.probe_ok = false →
      MK3Protocol.run_full_diagnostic env n =
        { ip := env.ip, port := env.port, is_reachable := false
          response_times := [("connectivity", env.probe_time)]
          errors := ["Connection failed: " ++ env.probe_error] }) ∧
    (env.probe_ok = true →
      (MK3Protocol.run_full_diagnostic env n).is_reachable = true ∧
      (MK3Protocol.run_full_diagnostic env n).response_times =
        [("connectivity", env.probe_time), ("power_query", env.power.time),
         ("global_protect_query", env.global_protect.time),
         ("thermal_query", env.thermal.time)] ∧
      (MK3Protocol.run_full_diagnostic env n).groups =
        (if env.group_conn_ok then
          (List.range (min n 8)).map (MK3Protocol.build_group_status env)
         else []) ∧
      (env.group_conn_ok = true →
        (MK3Protocol.run_full_diagnostic env n).groups.length = min n 8) ∧
      (MK3Protocol.run_full_diagnostic env n).channels = [] ∧
      (MK3Protocol.run_full_diagnostic env n).errors =
        (if env.power.success then []
         else ["Power query failed: " ++ env.power.error.getD "None"])) ∧
    (o.success = false → ∀ e : String, o.error = some e → e ≠ "" →
      MK3Protocol.parse_thermal o =
        some { state_name := "Query not supported", query_supported := false }) := by
  refine ⟨fun hf => rfd_unreachable env n hf, fun ht => ?_, fun hs e he hne => ?_⟩
  · obtain ⟨f1, f2, f3, f4, f5, _, _, _, _⟩ := rfd_reachable_fields env n ht
    refine ⟨f1, f3, ?_, ?_, f2, f5⟩
    · rw [f4]
      by_cases hgc : env.group_conn_ok <;>
        simp [MK3Protocol.query_all_group_status, hgc]
    · intro hgc
      rw [f4]
      simp [MK3Protocol.query_all_group_status, hgc]
  · simp [MK3Protocol.parse_thermal, hs, he, hne]

/-- C3 witness: the amended theorem instantiated on the unreachable
device, the healthy reachable device with 8 groups, and a thermal
query that failed with a non-empty error text. -/
theorem C3_witness :
    MK3Protocol.run_full_diagnostic unreachableDeviceEnv 8 =
      { ip := "192.168.1.10", port := 52000, is_reachable := false
        response_times := [("connectivity", 3)]
        errors := ["Connection failed: Connection timed out"] } ∧
    (MK3Protocol.run_full_diagnostic healthyDeviceEnv 8).channels = [] ∧
    (MK3Protocol.run_full_diagnostic healthyDeviceEnv 8).groups.length = 8 ∧
    MK3Protocol.parse_thermal failQ =
      some { state_name := "Query not supported", query_supported := false } := by
  have h1 := C3_diagnostic_sequence_amended unreachableDeviceEnv 8 failQ
  have h2 := C3_diagnostic_sequence_amended healthyDeviceEnv 8 failQ
  refine ⟨h1.1 rfl, (h2.2.1 rfl).2.2.2.2.1, ?_, ?_⟩
  · have := (h2.2.1 rfl).2.2.2.1 rfl
    simpa using this
  · exact h2.2.2 rfl "Response timeout" rfl (by decide)

/-- Helper: in a decoded global-protect flag set, any named fault flag
forces `has_any_fault`. -/
theorem global_decode_flags_imply_fault (b : Nat)
    (hf : ((MK3Protocol.GlobalProtectBits.decode b).protection_active ||
           (MK3Protocol.GlobalProtectBits.decode b).thermal_warning ||
           (MK3Protocol.GlobalProtectBits.decode b).power_supply_fault ||
           (MK3Protocol.GlobalProtectBits.decode b).amplifier_fault) = true) :
    (MK3Protocol.GlobalProtectBits.decode b).has_any_fault = true := by
  by_cases hb : b = 0
  · subst hb
    simp [MK3Protocol.GlobalProtectBits.decode,
      MK3Protocol.GlobalProtectBits.PROTECTION_ACTIVE,
      MK3Protocol.GlobalProtectBits.THERMAL_WARNING,
      MK3Protocol.GlobalProtectBits.POWER_SUPPLY_FAULT,
      MK3Protocol.GlobalProtectBits.AMPLIFIER_FAULT] at hf
  · simp [MK3Protocol.GlobalProtectBits.decode, hb]

/-- Helper: in a decoded per-group flag set, any named fault flag
forces `has_any_fault`. -/
theorem group_decode_flags_imply_fault (b : Nat)
    (hf : ((MK3Protocol.GroupProtectBits.decode b).muted_due_to_protect ||
           (MK3Protocol.GroupProtectBits.decode b).thermal_protect ||
           (MK3Protocol.GroupProtectBits.decode b).over_current ||
           (MK3Protocol.GroupProtectBits.decode b).load_fault ||
           (MK3Protocol.GroupProtectBits.decode b).dc_fault) = true) :
    (MK3Protocol.GroupProtectBits.decode b).has_any_fault = true := by
  by_cases hb : b = 0
  · subst hb
    simp [MK3Protocol.GroupProtectBits.decode,
      MK3Protocol.GroupProtectBits.MUTED_DUE_TO_PROTECT,
      MK3Protocol.GroupProtectBits.THERMAL_PROTECT,
      MK3Protocol.GroupProtectBits.OVER_CURRENT,
      MK3Protocol.GroupProtectBits.LOAD_FAULT,
      MK3Protocol.GroupProtectBits.DC_FAULT] at hf
  · simp [MK3Protocol.GroupProtectBits.decode, hb]

/-- Helper: every parsed global-protect value is a decode of its first
response byte. -/
theorem parse_global_protect_decode (o : MK3Protocol.QueryOutcome)
    (g : MK3Protocol.MK3GlobalProtectStatus)
    (h : MK3Protocol.parse_global_protect o = some g) :
    g.protection_active =
      (MK3Protocol.GlobalProtectBits.decode (o.raw_data.headD 0)).protection_active ∧
    g.thermal_warning =
      (MK3Protocol.GlobalProtectBits.decode (o.raw_data.headD 0)).thermal_warning ∧
    g.power_supply_fault =
      (MK3Protocol.GlobalProtectBits.decode (o.raw_data.headD 0)).power_supply_fault ∧
    g.amplifier_fault =
      (MK3Protocol.GlobalProtectBits.decode (o.raw_data.headD 0)).amplifier_fault ∧
    g.has_any_fault =
      (MK3Protocol.GlobalProtectBits.decode (o.raw_data.headD 0)).has_any_fault := by
  by_cases hc : o.success && !o.raw_data.isEmpty
  · simp [MK3Protocol.parse_global_protect, hc] at h
    subst h
    simp
  · simp [MK3Protocol.parse_global_protect, hc] at h

/-- Helper: the protect field of an assembled group status is the
decode of the first byte of a successful, non-empty protect response,
and nothing else. -/
theorem build_group_status_protect (env : MK3Protocol.DeviceEnv) (i : Nat) :
    (MK3Protocol.build_group_status env i).protect_status =
      (if (env.group_protect i).success && !(env.group_protect i).raw_data.isEmpty
       then some (MK3Protocol.GroupProtectBits.decode
         ((env.group_protect i).raw_data.headD 0))
       else none) := by
  by_cases h1 : (env.group_protect i).success <;>
    by_cases h2 : (env.group_protect i).raw_data.isEmpty <;>
    by_cases h3 : (env.group_volume i).success <;>
    by_cases h4 : (env.group_mute i).success <;>
    by_cases h5 : (env.group_source i).success <;>
    simp [MK3Protocol.build_group_status, h1, h2, h3, h4, h5]

/-- C4: in every DeviceStatus assembled by `run_full_diagnostic` on a
reachable device, `hasAnyFault` equals the logical OR of the recorded
sub-component fault flags (global protect `has_any_fault`, critical
thermal state, and per-group protect `has_any_fault`; the channels
list is always empty so contributes nothing), it is forced to true by
any named sub-flag, and when the global-fault and thermal queries fail
while the group connection succeeds, the groups list is populated and
`hasAnyFault` is computed purely from group-level flags. -/
theorem C4_fault_aggregation (env : MK3Protocol.DeviceEnv) (n : Nat)
    (h : env.probe_ok = true) :
    ((MK3Protocol.run_full_diagnostic env n).has_any_fault =
      ((((MK3Protocol.run_full_diagnostic env n).global_protect).map
          (fun g => g.has_any_fault)).getD false ||
       (((MK3Protocol.run_full_diagnostic env n).thermal_status).map
          (fun t => t.is_critical)).getD false ||
       ((MK3Protocol.run_full_diagnostic env n).groups).any
         MK3Protocol.groupFault)) ∧
    (∀ g, (MK3Protocol.run_full_diagnostic env n).global_protect = some g →
       (g.protection_active || g.thermal_warning || g.power_supply_fault ||
        g.amplifier_fault) = true →
       (MK3Protocol.run_full_diagnostic env n).has_any_fault = true) ∧
    (∀ t, (MK3Protocol.run_full_diagnostic env n).thermal_status = some t →
       t.is_critical = true →
       (MK3Protocol.run_full_diagnostic env n).has_any_fault = true) ∧
    (∀ gr ∈ (MK3Protocol.run_full_diagnostic env n).groups, ∀ p,
       gr.protect_status = some p →
       (p.muted_due_to_protect || p.thermal_protect || p.over_current ||
        p.load_fault || p.dc_fault) = true →
       (MK3Protocol.run_full_diagnostic env n).has_any_fault = true) ∧
    (env.global_protect.success = false → env.thermal.success = false →
       (MK3Protocol.run_full_diagnostic env n).global_protect = none ∧
       (env.group_conn_ok = true →
         (MK3Protocol.run_full_diagnostic env n).groups.length = min n 8) ∧
       (MK3Protocol.run_full_diagnostic env n).has_any_fault =
         ((MK3Protocol.run_full_diagnostic env n).groups).any
           MK3Protocol.groupFault) := by
  obtain ⟨f1, f2, f3, f4, f5, f6, f7, f8, f9⟩ := rfd_reachable_fields env n h
  have hmain :
      (MK3Protocol.run_full_diagnostic env n).has_any_fault =
        ((((MK3Protocol.run_full_diagnostic env n).global_protect).map
            (fun g => g.has_any_fault)).getD false ||
         (((MK3Protocol.run_full_diagnostic env n).thermal_status).map
            (fun t => t.is_critical)).getD false ||
         ((MK3Protocol.run_full_diagnostic env n).groups).any
           MK3Protocol.groupFault) := by
    rw [f9, f7, f8, f4]
    by_cases hs : env.thermal.success <;> simp [hs]
  refine ⟨hmain, ?_, ?_, ?_, ?_⟩
  · intro g hg hflags
    rw [hmain, hg]
    have hd := parse_global_protect_decode env.global_protect g (by rw [← f7]; exact hg)
    have : g.has_any_fault = true := by
      rw [hd.2.2.2.2]
      apply global_decode_flags_imply_fault
      rw [← hd.1, ← hd.2.1, ← hd.2.2.1, ← hd.2.2.2.1]
      exact hflags
    simp [this]
  · intro t ht hcrit
    rw [hmain, ht]
    simp [hcrit]
  · intro gr hgr p hp hflags
    rw [hmain]
    have hfault : MK3Protocol.groupFault gr = true := by
      rw [f4] at hgr
      by_cases hgc : env.group_conn_ok
      · simp [MK3Protocol.query_all_group_status, hgc] at hgr
        obtain ⟨i, hi, hbi⟩ := hgr
        have hps := build_group_status_protect env i
        rw [← hbi] at hp
        rw [hps] at hp
        by_cases hc : (env.group_protect i).success &&
            !(env.group_protect i).raw_data.isEmpty
        · rw [if_pos hc] at hp
          have hpd := Option.some.inj hp
          have hfa := group_decode_flags_imply_fault
            ((env.group_protect i).raw_data.headD 0) (by rw [hpd]; exact hflags)
          rw [← hbi]
          simp [MK3Protocol.groupFault, hps, hc]
          simpa using hfa
        · rw [if_neg hc] at hp
          exact absurd hp (by simp)
      · simp [MK3Protocol.query_all_group_status, hgc] at hgr
    have hany : ((MK3Protocol.run_full_diagnostic env n).groups).any
        MK3Protocol.groupFault = true :=
      List.any_eq_true.mpr ⟨gr, hgr, hfault⟩
    simp [hany]
  · intro hgf htf
    have hgp : (MK3Protocol.run_full_diagnostic env n).global_protect = none := by
      rw [f7]
      exact parse_global_protect_of_failure env.global_protect hgf
    refine ⟨hgp, ?_, ?_⟩
    · intro hgc
      rw [f4]
      simp [MK3Protocol.query_all_group_status, hgc]
    · rw [hmain, hgp, f8]
      simp [htf]

/-- C4 witness: the theorem instantiated on the device whose
global-fault and thermal queries fail while all group queries succeed
and group C reports an over-current byte: the groups list is populated
and `hasAnyFault` comes from the group flags alone (and is indeed
true). -/
theorem C4_witness :
    (MK3Protocol.run_full_diagnostic groupFaultDeviceEnv 8).global_protect = none ∧
    (MK3Protocol.run_full_diagnostic groupFaultDeviceEnv 8).groups.length = 8 ∧
    (MK3Protocol.run_full_diagnostic groupFaultDeviceEnv 8).has_any_fault =
      ((MK3Protocol.run_full_diagnostic groupFaultDeviceEnv 8).groups).any
        MK3Protocol.groupFault ∧
    (MK3Protocol.run_full_diagnostic groupFaultDeviceEnv 8).has_any_fault = true := by
  have h := C4_fault_aggregation groupFaultDeviceEnv 8 rfl
  have hs := h.2.2.2.2 rfl rfl
  exact ⟨hs.1, by simpa using hs.2.1 rfl, hs.2.2, by decide⟩
